import Mathlib

/-!
# Verification of the shrine-label transliteration engine

A shallow embedding of the phonological transliteration core of the
shrine-label generator: the normalizer, the kana → romaji reducer, the greedy
tokenizer, the script renderers (devoicing-Latin "tokiponizer", Hangul
"koreanizer", Cyrillic), the post-processors (positional h-rule, diphthong
collapsing, batchim merging, final-syllable declension), and the two
kanji-script-converter pipelines (sino-Korean reading, simplified Chinese).

Python strings are modelled as lists of Unicode codepoints (`List Nat`);
`codes` converts a Lean string literal to that representation.  Library
primitives that the source calls (`unicodedata.normalize("NFKC", ·)`,
`str.lower`, the regex word-character class `\w`, `str.capitalize`) are
modelled by total functions that are faithful on the codepoint ranges this
development exercises; each model says in its doc comment exactly which
fragment it covers.  The external kanji script converters (`hanja.translate`,
OpenCC `t2s.convert`) are opaque collaborators and are taken as function
parameters.
-/

namespace ShrineLabel

/-- Codepoints of a string literal: the model of a Python `str`. -/
def codes (s : String) : List Nat := s.toList.map Char.toNat

/-- First-match lookup in an association table of codepoint strings
(models Python `dict` membership / indexing; keys are unique). -/
def lookupTbl (tbl : List (List Nat × List Nat)) (k : List Nat) : Option (List Nat) :=
  (tbl.find? (fun p => p.1 == k)).map (fun p => p.2)

/-- Rule table `KANA_ROMAJI` transcribed from the source (dict insertion order, duplicate keys resolved last-wins as in Python). -/
def KANA_ROMAJI : List (List Nat × List Nat) :=
  [(codes "\u3042", codes "a"),
   (codes "\u3044", codes "i"),
   (codes "\u3046", codes "u"),
   (codes "\u3048", codes "e"),
   (codes "\u304a", codes "o"),
   (codes "\u304b", codes "ka"),
   (codes "\u304d", codes "ki"),
   (codes "\u304f", codes "ku"),
   (codes "\u3051", codes "ke"),
   (codes "\u3053", codes "ko"),
   (codes "\u304d\u3083", codes "kya"),
   (codes "\u304d\u3085", codes "kyu"),
   (codes "\u304d\u3087", codes "kyo"),
   (codes "\u3055", codes "sa"),
   (codes "\u3057", codes "shi"),
   (codes "\u3059", codes "su"),
   (codes "\u305b", codes "se"),
   (codes "\u305d", codes "so"),
   (codes "\u3057\u3083", codes "sha"),
   (codes "\u3057\u3085", codes "shu"),
   (codes "\u3057\u3087", codes "sho"),
   (codes "\u305f", codes "ta"),
   (codes "\u3061", codes "chi"),
   (codes "\u3064", codes "tsu"),
   (codes "\u3066", codes "te"),
   (codes "\u3068", codes "to"),
   (codes "\u3061\u3083", codes "cha"),
   (codes "\u3061\u3085", codes "chu"),
   (codes "\u3061\u3087", codes "cho"),
   (codes "\u306a", codes "na"),
   (codes "\u306b", codes "ni"),
   (codes "\u306c", codes "nu"),
   (codes "\u306d", codes "ne"),
   (codes "\u306e", codes "no"),
   (codes "\u306b\u3083", codes "nya"),
   (codes "\u306b\u3085", codes "nyu"),
   (codes "\u306b\u3087", codes "nyo"),
   (codes "\u306f", codes "ha"),
   (codes "\u3072", codes "hi"),
   (codes "\u3075", codes "fu"),
   (codes "\u3078", codes "he"),
   (codes "\u307b", codes "ho"),
   (codes "\u3072\u3083", codes "hya"),
   (codes "\u3072\u3085", codes "hyu"),
   (codes "\u3072\u3087", codes "hyo"),
   (codes "\u307e", codes "ma"),
   (codes "\u307f", codes "mi"),
   (codes "\u3080", codes "mu"),
   (codes "\u3081", codes "me"),
   (codes "\u3082", codes "mo"),
   (codes "\u307f\u3083", codes "mya"),
   (codes "\u307f\u3085", codes "myu"),
   (codes "\u307f\u3087", codes "myo"),
   (codes "\u3084", codes "ya"),
   (codes "\u3086", codes "yu"),
   (codes "\u3088", codes "yo"),
   (codes "\u3089", codes "ra"),
   (codes "\u308a", codes "ri"),
   (codes "\u308b", codes "ru"),
   (codes "\u308c", codes "re"),
   (codes "\u308d", codes "ro"),
   (codes "\u308a\u3083", codes "rya"),
   (codes "\u308a\u3085", codes "ryu"),
   (codes "\u308a\u3087", codes "ryo"),
   (codes "\u308f", codes "wa"),
   (codes "\u3092", codes "wo"),
   (codes "\u3093", codes "n"),
   (codes "\u304c", codes "ga"),
   (codes "\u304e", codes "gi"),
   (codes "\u3050", codes "gu"),
   (codes "\u3052", codes "ge"),
   (codes "\u3054", codes "go"),
   (codes "\u304e\u3083", codes "gya"),
   (codes "\u304e\u3085", codes "gyu"),
   (codes "\u304e\u3087", codes "gyo"),
   (codes "\u3056", codes "za"),
   (codes "\u3058", codes "ji"),
   (codes "\u305a", codes "su"),
   (codes "\u305c", codes "ze"),
   (codes "\u305e", codes "zo"),
   (codes "\u3058\u3083", codes "ja"),
   (codes "\u3058\u3085", codes "ju"),
   (codes "\u3058\u3087", codes "jo"),
   (codes "\u3060", codes "da"),
   (codes "\u3062", codes "ji"),
   (codes "\u3065", codes "tu"),
   (codes "\u3067", codes "de"),
   (codes "\u3069", codes "do"),
   (codes "\u3062\u3083", codes "ja"),
   (codes "\u3062\u3085", codes "ju"),
   (codes "\u3062\u3087", codes "jo"),
   (codes "\u3070", codes "ba"),
   (codes "\u3073", codes "bi"),
   (codes "\u3076", codes "bu"),
   (codes "\u3079", codes "be"),
   (codes "\u307c", codes "bo"),
   (codes "\u3073\u3083", codes "bya"),
   (codes "\u3073\u3085", codes "byu"),
   (codes "\u3073\u3087", codes "byo"),
   (codes "\u3071", codes "pa"),
   (codes "\u3074", codes "pi"),
   (codes "\u3077", codes "pu"),
   (codes "\u307a", codes "pe"),
   (codes "\u307d", codes "po"),
   (codes "\u3074\u3083", codes "pya"),
   (codes "\u3074\u3085", codes "pyu"),
   (codes "\u3074\u3087", codes "pyo")]

/-- Rule table `BASE_MAP` transcribed from the source (dict insertion order, duplicate keys resolved last-wins as in Python). -/
def BASE_MAP : List (List Nat × List Nat) :=
  [(codes "a", codes "a"),
   (codes "i", codes "i"),
   (codes "u", codes "u"),
   (codes "e", codes "e"),
   (codes "o", codes "o"),
   (codes "\u0101", codes "a"),
   (codes "\u012b", codes "i"),
   (codes "\u016b", codes "u"),
   (codes "\u0113", codes "e"),
   (codes "\u014d", codes "o"),
   (codes "ka", codes "ka"),
   (codes "ki", codes "ki"),
   (codes "ku", codes "ku"),
   (codes "ke", codes "ke"),
   (codes "ko", codes "ko"),
   (codes "sa", codes "sa"),
   (codes "shi", codes "si"),
   (codes "su", codes "su"),
   (codes "se", codes "se"),
   (codes "so", codes "so"),
   (codes "ta", codes "ta"),
   (codes "chi", codes "si"),
   (codes "tsu", codes "tu"),
   (codes "tu", codes "tu"),
   (codes "te", codes "te"),
   (codes "to", codes "to"),
   (codes "na", codes "na"),
   (codes "ni", codes "ni"),
   (codes "nu", codes "nu"),
   (codes "ne", codes "ne"),
   (codes "no", codes "no"),
   (codes "ma", codes "ma"),
   (codes "mi", codes "mi"),
   (codes "mu", codes "mu"),
   (codes "me", codes "me"),
   (codes "mo", codes "mo"),
   (codes "pa", codes "pa"),
   (codes "pi", codes "pi"),
   (codes "pu", codes "pu"),
   (codes "pe", codes "pe"),
   (codes "po", codes "po"),
   (codes "ya", codes "ja"),
   (codes "yu", codes "ju"),
   (codes "yo", codes "jo"),
   (codes "ra", codes "la"),
   (codes "ri", codes "li"),
   (codes "ru", codes "lu"),
   (codes "re", codes "le"),
   (codes "ro", codes "lo"),
   (codes "wa", codes "wa"),
   (codes "wo", codes "wo"),
   (codes "n", codes "n"),
   (codes "ga", codes "ka"),
   (codes "gi", codes "ki"),
   (codes "gu", codes "ku"),
   (codes "ge", codes "ke"),
   (codes "go", codes "ko"),
   (codes "za", codes "sa"),
   (codes "ji", codes "si"),
   (codes "zu", codes "su"),
   (codes "ze", codes "se"),
   (codes "zo", codes "so"),
   (codes "da", codes "ta"),
   (codes "di", codes "si"),
   (codes "du", codes "tu"),
   (codes "de", codes "te"),
   (codes "do", codes "to"),
   (codes "ba", codes "pa"),
   (codes "bi", codes "pi"),
   (codes "bu", codes "pu"),
   (codes "be", codes "pe"),
   (codes "bo", codes "po"),
   (codes "ha", codes "ha"),
   (codes "hi", codes "hi"),
   (codes "hu", codes "pu"),
   (codes "fu", codes "pu"),
   (codes "he", codes "he"),
   (codes "ho", codes "ho")]

/-- Rule table `YOON_MAP` transcribed from the source (dict insertion order, duplicate keys resolved last-wins as in Python). -/
def YOON_MAP : List (List Nat × List Nat) :=
  [(codes "kya", codes "kija"),
   (codes "kyu", codes "kiju"),
   (codes "kyo", codes "kijo"),
   (codes "sha", codes "sija"),
   (codes "shu", codes "siju"),
   (codes "sho", codes "sijo"),
   (codes "cha", codes "teja"),
   (codes "chu", codes "teju"),
   (codes "cho", codes "tejo"),
   (codes "nya", codes "na"),
   (codes "nyu", codes "niyu"),
   (codes "nyo", codes "no"),
   (codes "hya", codes "kija"),
   (codes "hyu", codes "kiju"),
   (codes "hyo", codes "kijo"),
   (codes "mya", codes "mija"),
   (codes "myu", codes "miju"),
   (codes "myo", codes "mijo"),
   (codes "rya", codes "liya"),
   (codes "ryu", codes "liyu"),
   (codes "ryo", codes "liyo"),
   (codes "gya", codes "kija"),
   (codes "gyu", codes "kiju"),
   (codes "gyo", codes "kijo"),
   (codes "ja", codes "sija"),
   (codes "ju", codes "siju"),
   (codes "jo", codes "sijo"),
   (codes "bya", codes "pija"),
   (codes "byu", codes "piju"),
   (codes "byo", codes "pijo"),
   (codes "pya", codes "pija"),
   (codes "pyu", codes "piju"),
   (codes "pyo", codes "pijo"),
   (codes "dya", codes "teja"),
   (codes "dyu", codes "teju"),
   (codes "dyo", codes "tejo")]

/-- Rule table `DIPTHONGS` transcribed from the source (dict insertion order, duplicate keys resolved last-wins as in Python). -/
def DIPTHONGS : List (List Nat × List Nat) :=
  [(codes "aa", codes "a"),
   (codes "ai", codes "a"),
   (codes "au", codes "a"),
   (codes "ae", codes "awe"),
   (codes "ao", codes "o"),
   (codes "ia", codes "ija"),
   (codes "ii", codes "i"),
   (codes "iu", codes "iju"),
   (codes "ie", codes "ije"),
   (codes "io", codes "ijo"),
   (codes "ua", codes "uwa"),
   (codes "ui", codes "uwi"),
   (codes "uu", codes "u"),
   (codes "ue", codes "uwe"),
   (codes "uo", codes "o"),
   (codes "ea", codes "eja"),
   (codes "ei", codes "e"),
   (codes "eu", codes "eju"),
   (codes "ee", codes "e"),
   (codes "eo", codes "ejo"),
   (codes "oa", codes "owa"),
   (codes "oi", codes "owi"),
   (codes "ou", codes "o"),
   (codes "oe", codes "owe"),
   (codes "oo", codes "o")]

/-- Rule table `ROMAJI_TO_HANGUL` transcribed from the source (dict insertion order, duplicate keys resolved last-wins as in Python). -/
def ROMAJI_TO_HANGUL : List (List Nat × List Nat) :=
  [(codes "a", codes "\uc544"),
   (codes "i", codes "\uc774"),
   (codes "u", codes "\uc6b0"),
   (codes "e", codes "\uc5d0"),
   (codes "o", codes "\uc624"),
   (codes "ka", codes "\uce74"),
   (codes "ki", codes "\ud0a4"),
   (codes "ku", codes "\ucfe0"),
   (codes "ke", codes "\ucf00"),
   (codes "ko", codes "\ucf54"),
   (codes "sa", codes "\uc0ac"),
   (codes "shi", codes "\uc2dc"),
   (codes "su", codes "\uc2a4"),
   (codes "se", codes "\uc138"),
   (codes "so", codes "\uc18c"),
   (codes "ta", codes "\ud0c0"),
   (codes "chi", codes "\uce58"),
   (codes "tsu", codes "\uc4f0"),
   (codes "tu", codes "\uc4f0"),
   (codes "te", codes "\ud14c"),
   (codes "to", codes "\ud1a0"),
   (codes "na", codes "\ub098"),
   (codes "ni", codes "\ub2c8"),
   (codes "nu", codes "\ub204"),
   (codes "ne", codes "\ub124"),
   (codes "no", codes "\ub178"),
   (codes "ha", codes "\ud558"),
   (codes "hi", codes "\ud788"),
   (codes "hu", codes "\ud6c4"),
   (codes "fu", codes "\ud6c4"),
   (codes "he", codes "\ud5e4"),
   (codes "ho", codes "\ud638"),
   (codes "ma", codes "\ub9c8"),
   (codes "mi", codes "\ubbf8"),
   (codes "mu", codes "\ubb34"),
   (codes "me", codes "\uba54"),
   (codes "mo", codes "\ubaa8"),
   (codes "ya", codes "\uc57c"),
   (codes "yu", codes "\uc720"),
   (codes "yo", codes "\uc694"),
   (codes "ra", codes "\ub77c"),
   (codes "ri", codes "\ub9ac"),
   (codes "ru", codes "\ub8e8"),
   (codes "re", codes "\ub808"),
   (codes "ro", codes "\ub85c"),
   (codes "wa", codes "\uc640"),
   (codes "wi", codes "\uc704"),
   (codes "we", codes "\uc6e8"),
   (codes "wo", codes "\uc624"),
   (codes "n", codes "\u3134"),
   (codes "ga", codes "\uac00"),
   (codes "gi", codes "\uae30"),
   (codes "gu", codes "\uad6c"),
   (codes "ge", codes "\uac8c"),
   (codes "go", codes "\uace0"),
   (codes "za", codes "\uc790"),
   (codes "ji", codes "\uc9c0"),
   (codes "zu", codes "\uc988"),
   (codes "ze", codes "\uc81c"),
   (codes "zo", codes "\uc870"),
   (codes "da", codes "\ub2e4"),
   (codes "di", codes "\uc9c0"),
   (codes "du", codes "\uc988"),
   (codes "de", codes "\ub370"),
   (codes "do", codes "\ub3c4"),
   (codes "ba", codes "\ubc14"),
   (codes "bi", codes "\ube44"),
   (codes "bu", codes "\ubd80"),
   (codes "be", codes "\ubca0"),
   (codes "bo", codes "\ubcf4"),
   (codes "pa", codes "\ud30c"),
   (codes "pi", codes "\ud53c"),
   (codes "pu", codes "\ud478"),
   (codes "pe", codes "\ud398"),
   (codes "po", codes "\ud3ec")]

/-- Rule table `YOON_TO_HANGUL` transcribed from the source (dict insertion order, duplicate keys resolved last-wins as in Python). -/
def YOON_TO_HANGUL : List (List Nat × List Nat) :=
  [(codes "kya", codes "\uceac"),
   (codes "kyu", codes "\ud050"),
   (codes "kyo", codes "\ucfc4"),
   (codes "sha", codes "\uc0e4"),
   (codes "shu", codes "\uc288"),
   (codes "sho", codes "\uc1fc"),
   (codes "cha", codes "\ucc28"),
   (codes "chu", codes "\ucd94"),
   (codes "cho", codes "\ucd08"),
   (codes "nya", codes "\ub0d0"),
   (codes "nyu", codes "\ub274"),
   (codes "nyo", codes "\ub1e8"),
   (codes "hya", codes "\ud590"),
   (codes "hyu", codes "\ud734"),
   (codes "hyo", codes "\ud6a8"),
   (codes "mya", codes "\uba00"),
   (codes "myu", codes "\ubba4"),
   (codes "myo", codes "\ubb18"),
   (codes "rya", codes "\ub7b4"),
   (codes "ryu", codes "\ub958"),
   (codes "ryo", codes "\ub8cc"),
   (codes "gya", codes "\uac38"),
   (codes "gyu", codes "\uaddc"),
   (codes "gyo", codes "\uad50"),
   (codes "ja", codes "\uc790"),
   (codes "ju", codes "\uc8fc"),
   (codes "jo", codes "\uc870"),
   (codes "bya", codes "\ubc4c"),
   (codes "byu", codes "\ubdf0"),
   (codes "byo", codes "\ubd64"),
   (codes "pya", codes "\ud344"),
   (codes "pyu", codes "\ud4e8"),
   (codes "pyo", codes "\ud45c"),
   (codes "dya", codes "\ub31c"),
   (codes "dyu", codes "\ub4c0"),
   (codes "dyo", codes "\ub434")]

/-- Rule table `CYRILLIC_BASE` transcribed from the source (dict insertion order, duplicate keys resolved last-wins as in Python). -/
def CYRILLIC_BASE : List (List Nat × List Nat) :=
  [(codes "a", codes "\u0430"),
   (codes "i", codes "\u0438"),
   (codes "u", codes "\u0443"),
   (codes "e", codes "\u044d"),
   (codes "o", codes "\u043e"),
   (codes "ka", codes "\u043a\u0430"),
   (codes "ki", codes "\u043a\u0438"),
   (codes "ku", codes "\u043a\u0443"),
   (codes "ke", codes "\u043a\u044d"),
   (codes "ko", codes "\u043a\u043e"),
   (codes "sa", codes "\u0441\u0430"),
   (codes "shi", codes "\u0441\u0438"),
   (codes "su", codes "\u0441\u0443"),
   (codes "se", codes "\u0441\u044d"),
   (codes "so", codes "\u0441\u043e"),
   (codes "ta", codes "\u0442\u0430"),
   (codes "chi", codes "\u0442\u0438"),
   (codes "tsu", codes "\u0446\u0443"),
   (codes "tu", codes "\u0446\u0443"),
   (codes "te", codes "\u0442\u044d"),
   (codes "to", codes "\u0442\u043e"),
   (codes "na", codes "\u043d\u0430"),
   (codes "ni", codes "\u043d\u0438"),
   (codes "nu", codes "\u043d\u0443"),
   (codes "ne", codes "\u043d\u044d"),
   (codes "no", codes "\u043d\u043e"),
   (codes "ha", codes "\u0445\u0430"),
   (codes "hi", codes "\u0445\u0438"),
   (codes "hu", codes "\u0444\u0443"),
   (codes "fu", codes "\u0444\u0443"),
   (codes "he", codes "\u0445\u044d"),
   (codes "ho", codes "\u0445\u043e"),
   (codes "ma", codes "\u043c\u0430"),
   (codes "mi", codes "\u043c\u0438"),
   (codes "mu", codes "\u043c\u0443"),
   (codes "me", codes "\u043c\u044d"),
   (codes "mo", codes "\u043c\u043e"),
   (codes "ya", codes "\u044f"),
   (codes "yu", codes "\u044e"),
   (codes "yo", codes "\u0451"),
   (codes "ra", codes "\u0440\u0430"),
   (codes "ri", codes "\u0440\u0438"),
   (codes "ru", codes "\u0440\u0443"),
   (codes "re", codes "\u0440\u044d"),
   (codes "ro", codes "\u0440\u043e"),
   (codes "wa", codes "\u0432\u0430"),
   (codes "wi", codes "\u0432\u0438"),
   (codes "we", codes "\u0432\u044d"),
   (codes "wo", codes "\u043e"),
   (codes "n", codes "\u043d"),
   (codes "ga", codes "\u0433\u0430"),
   (codes "gi", codes "\u0433\u0438"),
   (codes "gu", codes "\u0433\u0443"),
   (codes "ge", codes "\u0433\u044d"),
   (codes "go", codes "\u0433\u043e"),
   (codes "za", codes "\u0434\u0437\u0430"),
   (codes "ji", codes "\u0434\u0437\u0438"),
   (codes "zu", codes "\u0434\u0437\u0443"),
   (codes "ze", codes "\u0434\u0437\u044d"),
   (codes "zo", codes "\u0434\u0437\u043e"),
   (codes "da", codes "\u0434\u0430"),
   (codes "di", codes "\u0434\u0437\u0438"),
   (codes "du", codes "\u0434\u0437\u0443"),
   (codes "de", codes "\u0434\u044d"),
   (codes "do", codes "\u0434\u043e"),
   (codes "ba", codes "\u0431\u0430"),
   (codes "bi", codes "\u0431\u0438"),
   (codes "bu", codes "\u0431\u0443"),
   (codes "be", codes "\u0431\u044d"),
   (codes "bo", codes "\u0431\u043e"),
   (codes "pa", codes "\u043f\u0430"),
   (codes "pi", codes "\u043f\u0438"),
   (codes "pu", codes "\u043f\u0443"),
   (codes "pe", codes "\u043f\u044d"),
   (codes "po", codes "\u043f\u043e")]

/-- Rule table `CYRILLIC_YOON` transcribed from the source (dict insertion order, duplicate keys resolved last-wins as in Python). -/
def CYRILLIC_YOON : List (List Nat × List Nat) :=
  [(codes "kya", codes "\u043a\u044f"),
   (codes "kyu", codes "\u043a\u044e"),
   (codes "kyo", codes "\u043a\u0451"),
   (codes "sha", codes "\u0441\u044f"),
   (codes "shu", codes "\u0441\u044e"),
   (codes "sho", codes "\u0441\u0451"),
   (codes "cha", codes "\u0442\u044f"),
   (codes "chu", codes "\u0442\u044e"),
   (codes "cho", codes "\u0442\u0451"),
   (codes "nya", codes "\u043d\u044f"),
   (codes "nyu", codes "\u043d\u044e"),
   (codes "nyo", codes "\u043d\u0451"),
   (codes "hya", codes "\u0445\u044f"),
   (codes "hyu", codes "\u0445\u044e"),
   (codes "hyo", codes "\u0445\u0451"),
   (codes "mya", codes "\u043c\u044f"),
   (codes "myu", codes "\u043c\u044e"),
   (codes "myo", codes "\u043c\u0451"),
   (codes "rya", codes "\u0440\u044f"),
   (codes "ryu", codes "\u0440\u044e"),
   (codes "ryo", codes "\u0440\u0451"),
   (codes "gya", codes "\u0433\u044f"),
   (codes "gyu", codes "\u0433\u044e"),
   (codes "gyo", codes "\u0433\u0451"),
   (codes "ja", codes "\u0434\u0437\u044f"),
   (codes "ju", codes "\u0434\u0437\u044e"),
   (codes "jo", codes "\u0434\u0437\u0451"),
   (codes "bya", codes "\u0431\u044f"),
   (codes "byu", codes "\u0431\u044e"),
   (codes "byo", codes "\u0431\u0451"),
   (codes "pya", codes "\u043f\u044f"),
   (codes "pyu", codes "\u043f\u044e"),
   (codes "pyo", codes "\u043f\u0451"),
   (codes "dya", codes "\u0434\u044f"),
   (codes "dyu", codes "\u0434\u044e"),
   (codes "dyo", codes "\u0434\u0451")]

/-- Rule table `KANA_TO_CHINESE` transcribed from the source (dict insertion order, duplicate keys resolved last-wins as in Python). -/
def KANA_TO_CHINESE : List (List Nat × List Nat) :=
  [(codes "\u306e", codes "\u4e4b"),
   (codes "\u30f6", codes "\u4e2a"),
   (codes "\u30b1", codes "\u6c17"),
   (codes "\u304c", codes "\u8d3a"),
   (codes "\u30f6\u4e18", codes "\u4e2a\u4e18"),
   (codes "\u3042", codes "\u963f"),
   (codes "\u3044", codes "\u4f0a"),
   (codes "\u3046", codes "\u5b87"),
   (codes "\u3048", codes "\u6c5f"),
   (codes "\u304a", codes "\u65bc"),
   (codes "\u304b", codes "\u52a0"),
   (codes "\u304d", codes "\u7eaa"),
   (codes "\u304f", codes "\u4e45"),
   (codes "\u3051", codes "\u6c17"),
   (codes "\u3053", codes "\u53e4"),
   (codes "\u3055", codes "\u4f50"),
   (codes "\u3057", codes "\u5fd7"),
   (codes "\u3059", codes "\u987b"),
   (codes "\u305b", codes "\u4e16"),
   (codes "\u305d", codes "\u66fd"),
   (codes "\u305f", codes "\u591a"),
   (codes "\u3061", codes "\u77e5"),
   (codes "\u3064", codes "\u6d25"),
   (codes "\u3066", codes "\u5929"),
   (codes "\u3068", codes "\u90fd"),
   (codes "\u306a", codes "\u5948"),
   (codes "\u306b", codes "\u4ec1"),
   (codes "\u306c", codes "\u5974"),
   (codes "\u306d", codes "\u7962"),
   (codes "\u306f", codes "\u6ce2"),
   (codes "\u3072", codes "\u6bd4"),
   (codes "\u3075", codes "\u5e03"),
   (codes "\u3078", codes "\u90e8"),
   (codes "\u307b", codes "\u4fdd"),
   (codes "\u307e", codes "\u4e07"),
   (codes "\u307f", codes "\u7f8e"),
   (codes "\u3080", codes "\u6b66"),
   (codes "\u3081", codes "\u5973"),
   (codes "\u3082", codes "\u8302"),
   (codes "\u3084", codes "\u4e5f"),
   (codes "\u3086", codes "\u7531"),
   (codes "\u3088", codes "\u4e0e"),
   (codes "\u3089", codes "\u826f"),
   (codes "\u308a", codes "\u5229"),
   (codes "\u308b", codes "\u7559"),
   (codes "\u308c", codes "\u793c"),
   (codes "\u308d", codes "\u8def"),
   (codes "\u308f", codes "\u548c"),
   (codes "\u3090", codes "\u70ba"),
   (codes "\u3091", codes "\u6075"),
   (codes "\u3092", codes "\u4e4e"),
   (codes "\u3093", codes "\u65e0"),
   (codes "\u30a2", codes "\u963f"),
   (codes "\u30a4", codes "\u4f0a"),
   (codes "\u30a6", codes "\u5b87"),
   (codes "\u30a8", codes "\u6c5f"),
   (codes "\u30aa", codes "\u65bc"),
   (codes "\u30ab", codes "\u52a0"),
   (codes "\u30ad", codes "\u7eaa"),
   (codes "\u30af", codes "\u4e45"),
   (codes "\u30b3", codes "\u53e4"),
   (codes "\u30b5", codes "\u4f50"),
   (codes "\u30b7", codes "\u5fd7"),
   (codes "\u30b9", codes "\u987b"),
   (codes "\u30bb", codes "\u4e16"),
   (codes "\u30bd", codes "\u66fd"),
   (codes "\u30bf", codes "\u591a"),
   (codes "\u30c1", codes "\u77e5"),
   (codes "\u30c4", codes "\u6d25"),
   (codes "\u30c6", codes "\u5929"),
   (codes "\u30c8", codes "\u90fd"),
   (codes "\u30ca", codes "\u5948"),
   (codes "\u30cb", codes "\u4ec1"),
   (codes "\u30cc", codes "\u5974"),
   (codes "\u30cd", codes "\u7962"),
   (codes "\u30ce", codes "\u4e4b"),
   (codes "\u30cf", codes "\u6ce2"),
   (codes "\u30d2", codes "\u6bd4"),
   (codes "\u30d5", codes "\u5e03"),
   (codes "\u30d8", codes "\u90e8"),
   (codes "\u30db", codes "\u4fdd"),
   (codes "\u30de", codes "\u4e07"),
   (codes "\u30df", codes "\u7f8e"),
   (codes "\u30e0", codes "\u6b66"),
   (codes "\u30e1", codes "\u5973"),
   (codes "\u30e2", codes "\u8302"),
   (codes "\u30e4", codes "\u4e5f"),
   (codes "\u30e6", codes "\u7531"),
   (codes "\u30e8", codes "\u4e0e"),
   (codes "\u30e9", codes "\u826f"),
   (codes "\u30ea", codes "\u5229"),
   (codes "\u30eb", codes "\u7559"),
   (codes "\u30ec", codes "\u793c"),
   (codes "\u30ed", codes "\u8def"),
   (codes "\u30ef", codes "\u548c"),
   (codes "\u30f0", codes "\u70ba"),
   (codes "\u30f1", codes "\u6075"),
   (codes "\u30f2", codes "\u4e4e"),
   (codes "\u30f3", codes "\u65e0"),
   (codes "\u304e", codes "\u4e49"),
   (codes "\u3050", codes "\u5177"),
   (codes "\u3052", codes "\u4e0b"),
   (codes "\u3054", codes "\u543e"),
   (codes "\u3056", codes "\u5ea7"),
   (codes "\u3058", codes "\u6cbb"),
   (codes "\u305a", codes "\u5934"),
   (codes "\u305c", codes "\u662f"),
   (codes "\u305e", codes "\u66fd"),
   (codes "\u3060", codes "\u592a"),
   (codes "\u3062", codes "\u6cbb"),
   (codes "\u3065", codes "\u6d25"),
   (codes "\u3067", codes "\u51fa"),
   (codes "\u3069", codes "\u571f"),
   (codes "\u3070", codes "\u9a6c"),
   (codes "\u3073", codes "\u5c3e"),
   (codes "\u3076", codes "\u6b66"),
   (codes "\u3079", codes "\u90e8"),
   (codes "\u307c", codes "\u6bcd"),
   (codes "\u3071", codes "\u6ce2"),
   (codes "\u3074", codes "\u6bd4"),
   (codes "\u3077", codes "\u5e03"),
   (codes "\u307a", codes "\u90e8"),
   (codes "\u307d", codes "\u4fdd"),
   (codes "\u30ac", codes "\u8d3a"),
   (codes "\u30ae", codes "\u4e49"),
   (codes "\u30b0", codes "\u5177"),
   (codes "\u30b2", codes "\u4e0b"),
   (codes "\u30b4", codes "\u543e"),
   (codes "\u30b6", codes "\u5ea7"),
   (codes "\u30b8", codes "\u6cbb"),
   (codes "\u30ba", codes "\u5934"),
   (codes "\u30bc", codes "\u662f"),
   (codes "\u30be", codes "\u66fd"),
   (codes "\u30c0", codes "\u592a"),
   (codes "\u30c2", codes "\u6cbb"),
   (codes "\u30c5", codes "\u6d25"),
   (codes "\u30c7", codes "\u51fa"),
   (codes "\u30c9", codes "\u571f"),
   (codes "\u30d0", codes "\u9a6c"),
   (codes "\u30d3", codes "\u5c3e"),
   (codes "\u30d6", codes "\u6b66"),
   (codes "\u30d9", codes "\u90e8"),
   (codes "\u30dc", codes "\u6bcd"),
   (codes "\u30d1", codes "\u6ce2"),
   (codes "\u30d4", codes "\u6bd4"),
   (codes "\u30d7", codes "\u5e03"),
   (codes "\u30da", codes "\u90e8"),
   (codes "\u30dd", codes "\u4fdd"),
   (codes "\u3063", codes ""),
   (codes "\u30c3", codes ""),
   (codes "\u3083", codes "\u4e5f"),
   (codes "\u3085", codes "\u7531"),
   (codes "\u3087", codes "\u4e0e"),
   (codes "\u30e3", codes "\u4e5f"),
   (codes "\u30e5", codes "\u7531"),
   (codes "\u30e7", codes "\u4e0e"),
   (codes "\u3041", codes "\u963f"),
   (codes "\u3043", codes "\u4f0a"),
   (codes "\u3045", codes "\u5b87"),
   (codes "\u3047", codes "\u6c5f"),
   (codes "\u3049", codes "\u65bc"),
   (codes "\u30a1", codes "\u963f"),
   (codes "\u30a3", codes "\u4f0a"),
   (codes "\u30a5", codes "\u5b87"),
   (codes "\u30a7", codes "\u6c5f"),
   (codes "\u30a9", codes "\u65bc"),
   (codes "\u30fc", codes "")]

/-!
## Models of the Python/Unicode library primitives used by `normalize`
-/

/-- Start of the Hangul conjoining initial-consonant (choseong) jamo block. -/
def choseongLo : Nat := 0x1100

/-- The codepoint is a Hangul conjoining initial (choseong) jamo, U+1100–U+1112. -/
def isChoseong (c : Nat) : Bool := decide (0x1100 ≤ c ∧ c ≤ 0x1112)

/-- The codepoint is a Hangul conjoining medial (jungseong) jamo, U+1161–U+1175. -/
def isJungseong (c : Nat) : Bool := decide (0x1161 ≤ c ∧ c ≤ 0x1175)

/-- The codepoint is a Hangul conjoining trailing (jongseong) jamo, U+11A8–U+11C2. -/
def isJongseong (c : Nat) : Bool := decide (0x11A8 ≤ c ∧ c ≤ 0x11C2)

/-- The codepoint is a composed Hangul LV syllable: in U+AC00–U+D7A3 with an
empty final-consonant slot (offset from 0xAC00 divisible by 28). -/
def isLVSyllable (c : Nat) : Bool :=
  decide (0xAC00 ≤ c ∧ c ≤ 0xD7A3 ∧ (c - 0xAC00) % 28 = 0)

/-- The codepoint is any Hangul conjoining jamo (the U+1100–U+11FF block). -/
def isConjoiningJamo (c : Nat) : Bool := decide (0x1100 ≤ c ∧ c ≤ 0x11FF)

/-- Canonical Hangul LV composition: `0xAC00 + initial*588 + medial*28`. -/
def hangulLV (c d : Nat) : Nat := 0xAC00 + (c - 0x1100) * 588 + (d - 0x1161) * 28

/-- Model of `unicodedata.normalize("NFKC", text)`, restricted to the
character domain of this development: on these codepoints NFKC acts as the
identity except for canonical Hangul composition of adjacent pairs, both the
initial+medial case (L+V → LV) and the syllable+final case (LV+T → LVT,
adding `d - 0x11A7` to the LV codepoint).  A three-jamo L V T run composes
pairwise across passes in this model rather than in one pass; the inputs
considered here never contain such a run.  All concrete characters appearing
in the claims (ASCII, macron vowels, kana, Cyrillic, precomposed Hangul
syllables, CJK ideographs) are NFKC-stable, so the model is the identity on
them. -/
def nfkc : List Nat → List Nat
  | c :: d :: rest =>
    if isChoseong c && isJungseong d then hangulLV c d :: nfkc rest
    else if isLVSyllable c && isJongseong d then (c + (d - 0x11A7)) :: nfkc rest
    else c :: nfkc (d :: rest)
  | l => l

/-- The engine's working alphabet: printable ASCII, the five macron vowels,
Cyrillic, hiragana and katakana letters with the prolonged-sound mark, CJK
ideographs, and precomposed Hangul syllables — the codepoints the rule
tables and pipeline actually process.  Every member is NFKC-stable, is
mapped within the alphabet by lowercasing, and is no Hangul jamo of any kind
(conjoining or compatibility) and no combining mark, so no adjacency of
members ever composes under NFKC. -/
def engineAlphabet (c : Nat) : Bool :=
  (0x20 ≤ c && c ≤ 0x7E) ||
  c = 0x101 || c = 0x12B || c = 0x16B || c = 0x113 || c = 0x14D ||
  (0x400 ≤ c && c ≤ 0x4FF) ||
  (0x3041 ≤ c && c ≤ 0x3096) || (0x30A1 ≤ c && c ≤ 0x30FA) || c = 0x30FC ||
  (0x3400 ≤ c && c ≤ 0x4DBF) || (0x4E00 ≤ c && c ≤ 0x9FFF) ||
  (0xAC00 ≤ c && c ≤ 0xD7A3)

/-- Model of `str.lower`, faithful on ASCII and on the Cyrillic letters used
here (`А`–`Я` → `а`–`я`, `Ё` → `ё`); the identity on every other modelled
codepoint (kana, Hangul, CJK and lowercase letters are lower-stable). -/
def lowerCode (c : Nat) : Nat :=
  if 0x41 ≤ c ∧ c ≤ 0x5A then c + 0x20
  else if 0x410 ≤ c ∧ c ≤ 0x42F then c + 0x20
  else if c = 0x401 then 0x451
  else c

/-- Model of the uppercase/titlecase mapping used by `str.capitalize`,
faithful on ASCII and the Cyrillic letters used here. -/
def upperCode (c : Nat) : Nat :=
  if 0x61 ≤ c ∧ c ≤ 0x7A then c - 0x20
  else if 0x430 ≤ c ∧ c ≤ 0x44F then c - 0x20
  else if c = 0x451 then 0x401
  else c

/-- Model of Python's regex word-character class `\w` (alphanumerics and
underscore), restricted to the codepoint ranges this development uses:
ASCII alphanumerics and `_`, the five macron vowels, Hangul conjoining jamo,
hiragana and katakana letters (with the prolonged-sound mark), Hangul
compatibility jamo, CJK ideographs, Hangul syllables, and Cyrillic. -/
def isWordCode (c : Nat) : Bool :=
  (0x30 ≤ c && c ≤ 0x39) || (0x41 ≤ c && c ≤ 0x5A) || (0x61 ≤ c && c ≤ 0x7A) || c = 0x5F ||
  c = 0x101 || c = 0x12B || c = 0x16B || c = 0x113 || c = 0x14D ||
  (0x400 ≤ c && c ≤ 0x4FF) ||
  (0x1100 ≤ c && c ≤ 0x11FF) ||
  (0x3041 ≤ c && c ≤ 0x3096) || (0x30A1 ≤ c && c ≤ 0x30FA) || c = 0x30FC ||
  (0x3131 ≤ c && c ≤ 0x318E) ||
  (0x3400 ≤ c && c ≤ 0x4DBF) || (0x4E00 ≤ c && c ≤ 0x9FFF) ||
  (0xAC00 ≤ c && c ≤ 0xD7A3)

/-- The chain of single-character `str.replace` calls folding the macron
vowels `ā ī ū ē ō` to their plain counterparts.  Each replace rewrites one
codepoint to one codepoint and no output of one replace is the input of a
later one, so the chain is a single character map. -/
def macronFold (c : Nat) : Nat :=
  if c = 0x101 then 0x61
  else if c = 0x12B then 0x69
  else if c = 0x16B then 0x75
  else if c = 0x113 then 0x65
  else if c = 0x14D then 0x6F
  else c

/-!
## `tokiponizer.py`
-/

/-- `normalize`: NFKC, lowercase, strip non-word characters, fold macron
vowels — in that order, as in the source. -/
def normalize (text : List Nat) : List Nat :=
  (((nfkc text).map lowerCode).filter isWordCode).map macronFold

/-- `katakana_to_hiragana`: katakana U+30A1–U+30F6 shifted down by 0x60. -/
def katakana_to_hiragana (text : List Nat) : List Nat :=
  text.map (fun c => if 0x30A1 ≤ c && c ≤ 0x30F6 then c - 0x60 else c)

/-- The scanning loop of `kana_to_romaji`: prefer the 2-character kana match,
then the 1-character match; unmatched characters pass through.  (When one
character remains, the source's 2-character slice `text[i:i+2]` is that single
character, so the two membership tests coincide; the `[c]` case models both.) -/
def kanaRomajiLoop : List Nat → List Nat
  | [] => []
  | [c] =>
    match lookupTbl KANA_ROMAJI [c] with
    | some v => v
    | none => [c]
  | c1 :: c2 :: rest =>
    match lookupTbl KANA_ROMAJI [c1, c2] with
    | some v => v ++ kanaRomajiLoop rest
    | none =>
      match lookupTbl KANA_ROMAJI [c1] with
      | some v => v ++ kanaRomajiLoop (c2 :: rest)
      | none => c1 :: kanaRomajiLoop (c2 :: rest)

/-- `kana_to_romaji`. -/
def kana_to_romaji (text : List Nat) : List Nat :=
  kanaRomajiLoop (katakana_to_hiragana text)

/-- The greedy scanning loop shared by `tokenize_romaji` and
`tokenize_romaji_korean`: at each position try the 3-, then 2-, then
1-character slice against the vocabulary; take the first match and advance by
its length, otherwise advance one character and drop it.  `fuel` bounds the
iteration count; it is instantiated with the input length, which the loop
never exceeds since every step consumes at least one character. -/
def tokenizeLoop (vocab : List Nat → Bool) : Nat → List Nat → List (List Nat)
  | 0, _ => []
  | _ + 1, [] => []
  | fuel + 1, c :: cs =>
    if vocab ((c :: cs).take 3) then (c :: cs).take 3 :: tokenizeLoop vocab fuel ((c :: cs).drop 3)
    else if vocab ((c :: cs).take 2) then
      (c :: cs).take 2 :: tokenizeLoop vocab fuel ((c :: cs).drop 2)
    else if vocab [c] then [c] :: tokenizeLoop vocab fuel cs
    else tokenizeLoop vocab fuel cs

/-- The toki pona tokenizer vocabulary: `chunk in YOON_MAP or chunk in BASE_MAP`. -/
def tokiVocab (chunk : List Nat) : Bool :=
  (lookupTbl YOON_MAP chunk).isSome || (lookupTbl BASE_MAP chunk).isSome

/-- `tokenize_romaji`. -/
def tokenize_romaji (text : List Nat) : List (List Nat) :=
  tokenizeLoop tokiVocab text.length text

/-- The rendering loop of `tokiponize`: each token is looked up in
`YOON_MAP` first, then `BASE_MAP`; tokens in neither are dropped. -/
def tokiSyllables (tokens : List (List Nat)) : List (List Nat) :=
  tokens.filterMap (fun t =>
    match lookupTbl YOON_MAP t with
    | some v => some v
    | none => lookupTbl BASE_MAP t)

/-- `apply_h_position`: a syllable starting with `h` becomes `k`-initial at
token index 0 and `p`-initial elsewhere; other syllables are unchanged. -/
def apply_h_position (syllables : List (List Nat)) : List (List Nat) :=
  syllables.enum.map (fun p =>
    if p.2.headD 0 = ('h').toNat then
      (if p.1 = 0 then ('k').toNat else ('p').toNat) :: p.2.tail
    else p.2)

/-- The codepoint is one of the vowels `aeiou` (the source's membership test
`in "aeiou"`). -/
def isVowelCode (c : Nat) : Bool := (codes "aeiou").contains c

/-- One iteration of the `apply_dipthongs_to_syllables` loop.  The source
keeps a list `result` and reads/writes only `result[-1]`; the accumulator is
represented as `(done, prev)` with `result = done ++ [prev]`. -/
def dipStep (acc : List (List Nat) × List Nat) (syl : List Nat) : List (List Nat) × List Nat :=
  let done := acc.1
  let prev := acc.2
  if prev ≠ [] ∧ syl ≠ [] ∧ isVowelCode (prev.getLastD 0) ∧ isVowelCode (syl.headD 0) then
    match lookupTbl DIPTHONGS [prev.getLastD 0, syl.headD 0] with
    | some d =>
      if syl.length = 1 then (done, prev.dropLast ++ d)
      else (done ++ [prev.dropLast ++ d], syl.drop 1)
    | none => (done ++ [prev], syl)
  else (done ++ [prev], syl)

/-- `apply_dipthongs_to_syllables`: a single left-to-right pass collapsing
vowel seams between adjacent syllables. -/
def apply_dipthongs_to_syllables : List (List Nat) → List (List Nat)
  | [] => []
  | s :: rest =>
    let r := rest.foldl dipStep ([], s)
    r.1 ++ [r.2]

/-- Model of `str.capitalize`: first character titlecased (= uppercased on
the modelled letters), the rest lowercased. -/
def pyCapitalize : List Nat → List Nat
  | [] => []
  | c :: cs => upperCode c :: cs.map lowerCode

/-- `tokiponize`: normalize, reduce kana, tokenize, render, apply the
positional h-rule and the diphthong pass, join, capitalize; an empty word
yields the empty candidate list. -/
def tokiponize (text : List Nat) : List (List Nat) :=
  let tokens := tokenize_romaji (kana_to_romaji (normalize text))
  let syllables := apply_dipthongs_to_syllables (apply_h_position (tokiSyllables tokens))
  let word := pyCapitalize syllables.join
  if word = [] then [] else [word]
/-!
## `koreanizer.py`
-/

/-- The Korean tokenizer vocabulary:
`chunk in YOON_TO_HANGUL or chunk in ROMAJI_TO_HANGUL`. -/
def koreanVocab (chunk : List Nat) : Bool :=
  (lookupTbl YOON_TO_HANGUL chunk).isSome || (lookupTbl ROMAJI_TO_HANGUL chunk).isSome

/-- `tokenize_romaji_korean`: the same greedy loop as `tokenize_romaji`, over
the Korean-specific maps. -/
def tokenize_romaji_korean (text : List Nat) : List (List Nat) :=
  tokenizeLoop koreanVocab text.length text

/-- `_has_final` (source name `_has_final`): whether a Hangul syllable block
already carries a final consonant.  The signed arithmetic of the Python
original is modelled with `Int`. -/
def has_final (c : Nat) : Bool :=
  let code : Int := (c : Int) - 0xAC00
  if code < 0 || 11172 ≤ code then false else code % 28 ≠ 0

/-- `_add_nieun_batchim` (source name `_add_nieun_batchim`): add the ㄴ
batchim (final-consonant index 4) to a syllable block with an empty final
slot; out-of-range characters and blocks that already carry a final get a
standalone ㄴ appended instead. -/
def add_nieun_batchim (c : Nat) : List Nat :=
  let code : Int := (c : Int) - 0xAC00
  if code < 0 || 11172 ≤ code then [c, 0x3134]
  else if code % 28 ≠ 0 then [c, 0x3134]
  else [c + 4]

/-- The one-element string "ㄴ" (U+3134), the rendering of the moraic nasal. -/
def nieunStr : List Nat := codes "ㄴ"

/-- One iteration of the batchim-merge loop in `koreanize`: a standalone ㄴ
part is merged into the last character of the previous part when that
character is a composed syllable block (U+AC00–U+D7A3) with an empty final
slot; otherwise ㄴ is appended standalone.  Other parts are appended as-is.
(The source reads `prev[-1]` of a necessarily non-empty previous part; the
model's `getLastD` default is never reached on reachable states.) -/
def mergeStep (merged : List (List Nat)) (part : List Nat) : List (List Nat) :=
  if part = nieunStr ∧ merged ≠ [] then
    let prev := merged.getLastD []
    let lastChar := prev.getLastD 0
    if 0xAC00 ≤ lastChar ∧ lastChar ≤ 0xD7A3 ∧ has_final lastChar = false then
      merged.dropLast ++ [prev.dropLast ++ add_nieun_batchim lastChar]
    else merged ++ [nieunStr]
  else merged ++ [part]

/-- The batchim-merge pass of `koreanize` over the rendered hangul parts. -/
def mergeBatchim (parts : List (List Nat)) : List (List Nat) :=
  parts.foldl mergeStep []

/-- `koreanize`: normalize, reduce kana, tokenize with the Korean maps,
render each token (yōon table first, then base table), merge standalone ㄴ
as batchim, and join into a single string. -/
def koreanize (text : List Nat) : List Nat :=
  let tokens := tokenize_romaji_korean (kana_to_romaji (normalize text))
  let parts := tokens.filterMap (fun t =>
    match lookupTbl YOON_TO_HANGUL t with
    | some v => some v
    | none => lookupTbl ROMAJI_TO_HANGUL t)
  (mergeBatchim parts).join

/-!
## `generate_multilang_quickstatements.py`: Cyrillic rendering and declension
-/

/-- `_cyrillicize_word` (source name `_cyrillicize_word`): NFKC + lowercase,
fold macrons, strip non-word characters, reduce kana, tokenize with the
tokiponizer vocabulary, render via the Cyrillic yōon/base tables, join and
capitalize. -/
def cyrillicize_word (word : List Nat) : List Nat :=
  let w := ((nfkc word).map lowerCode).map macronFold
  let w := w.filter isWordCode
  let w := kana_to_romaji w
  let tokens := tokenize_romaji w
  let parts := tokens.filterMap (fun t =>
    match lookupTbl CYRILLIC_YOON t with
    | some v => some v
    | none => lookupTbl CYRILLIC_BASE t)
  let result := parts.join
  if result = [] then [] else pyCapitalize result

/-- Python `str.split()` separator class, restricted to the common ASCII
whitespace codepoints. -/
def isSpaceCode (c : Nat) : Bool :=
  c = 0x20 || c = 0x9 || c = 0xA || c = 0xB || c = 0xC || c = 0xD

/-- One step (from the right) of whitespace splitting: a separator starts a
new chunk, a non-separator is prepended to the current chunk. -/
def splitFold (c : Nat) (acc : List (List Nat)) : List (List Nat) :=
  if isSpaceCode c then [] :: acc
  else (c :: acc.headD []) :: acc.tail

/-- Model of Python `name.split()`: split on whitespace runs, dropping empty
chunks. -/
def pySplit (s : List Nat) : List (List Nat) :=
  (s.foldr splitFold []).filter (fun w => !w.isEmpty)

/-- Model of `" ".join(words)`. -/
def joinSpace : List (List Nat) → List Nat
  | [] => []
  | [w] => w
  | w :: ws => w ++ 0x20 :: joinSpace ws

/-- The ordered two-character suffix rules of `_decline_word_russian`. -/
def rusRules2 : List (List Nat × List Nat) :=
  [(codes "ан", codes "ана"),
   (codes "ин", codes "ина"),
   (codes "ун", codes "уна"),
   (codes "эн", codes "эна"),
   (codes "он", codes "она")]

/-- The consonants `гкхжчшщ` triggering the `-и` genitive in Russian. -/
def rusHushers : List Nat := codes "гкхжчшщ"

/-- `_decline_word_russian` (source name `_decline_word_russian`): try the
two-character suffix rules in order, then the `-а` rule (with `-и` after
`гкхжчшщ`, `-ы` otherwise); a word matching no rule is unchanged. -/
def decline_word_russian (word : List Nat) : List Nat :=
  match rusRules2.find? (fun r => r.1.isSuffixOf word) with
  | some r => word.take (word.length - r.1.length) ++ r.2
  | none =>
    if (codes "а").isSuffixOf word then
      if 2 ≤ word.length ∧ rusHushers.contains (word.dropLast.getLastD 0) = true then
        word.dropLast ++ codes "и"
      else word.dropLast ++ codes "ы"
    else word

/-- `decline_russian`: split into words, decline only the last word, rejoin
with single spaces; an input with no words is returned unchanged. -/
def decline_russian (name : List Nat) : List Nat :=
  let ws := pySplit name
  if ws = [] then name
  else joinSpace (ws.dropLast ++ [decline_word_russian (ws.getLastD [])])

/-- The ordered two-character suffix rules of `_decline_word_ukrainian`. -/
def ukrRules2 : List (List Nat × List Nat) :=
  [(codes "ан", codes "ана"),
   (codes "ін", codes "іна"),
   (codes "ун", codes "уна"),
   (codes "ен", codes "ена"),
   (codes "он", codes "она")]

/-- `_decline_word_ukrainian` (source name `_decline_word_ukrainian`). -/
def decline_word_ukrainian (word : List Nat) : List Nat :=
  match ukrRules2.find? (fun r => r.1.isSuffixOf word) with
  | some r => word.take (word.length - r.1.length) ++ r.2
  | none =>
    if (codes "а").isSuffixOf word then word.dropLast ++ codes "и"
    else word

/-- `decline_ukrainian`. -/
def decline_ukrainian (name : List Nat) : List Nat :=
  let ws := pySplit name
  if ws = [] then name
  else joinSpace (ws.dropLast ++ [decline_word_ukrainian (ws.getLastD [])])

/-- The ordered two-character suffix rules of `_decline_word_lithuanian`
(matched against the lowercased word). -/
def litRules2 : List (List Nat × List Nat) :=
  [(codes "an", codes "ano"), (codes "in", codes "ino"), (codes "un", codes "uno"),
   (codes "en", codes "eno"), (codes "on", codes "ono")]

/-- The ordered one-character suffix rules of `_decline_word_lithuanian`. -/
def litRules1 : List (List Nat × List Nat) :=
  [(codes "a", codes "os"), (codes "i", codes "io"), (codes "u", codes "us"),
   (codes "e", codes "ės"), (codes "o", codes "o")]

/-- `_decline_word_lithuanian` (source name `_decline_word_lithuanian`):
endings are matched on the lowercased word, the replacement slices the
original word; two-character rules first, then one-character rules. -/
def decline_word_lithuanian (word : List Nat) : List Nat :=
  let lower := word.map lowerCode
  match litRules2.find? (fun r => r.1.isSuffixOf lower) with
  | some r => word.take (word.length - r.1.length) ++ r.2
  | none =>
    match litRules1.find? (fun r => r.1.isSuffixOf lower) with
    | some r => word.take (word.length - r.1.length) ++ r.2
    | none => word

/-- `decline_lithuanian`. -/
def decline_lithuanian (name : List Nat) : List Nat :=
  let ws := pySplit name
  if ws = [] then name
  else joinSpace (ws.dropLast ++ [decline_word_lithuanian (ws.getLastD [])])

/-!
## `generate_chinese_quickstatements.py`
-/

/-- `is_kana`: hiragana U+3040–U+309F or katakana U+30A0–U+30FF. -/
def is_kana (c : Nat) : Bool :=
  (0x3040 ≤ c && c ≤ 0x309F) || (0x30A0 ≤ c && c ≤ 0x30FF)

/-- The kana-replacement pass of `japanese_to_chinese`: try the 2-character
slice in `KANA_TO_CHINESE`, then the single character; characters in neither
pass through unchanged.  (The source's separate `is_kana` branch also passes
the character through, so unknown kana survive this pass.) -/
def kanaToChinesePass : List Nat → List Nat
  | [] => []
  | [c] =>
    match lookupTbl KANA_TO_CHINESE [c] with
    | some v => v
    | none => [c]
  | c1 :: c2 :: rest =>
    match lookupTbl KANA_TO_CHINESE [c1, c2] with
    | some v => v ++ kanaToChinesePass rest
    | none =>
      match lookupTbl KANA_TO_CHINESE [c1] with
      | some v => v ++ kanaToChinesePass (c2 :: rest)
      | none => c1 :: kanaToChinesePass (c2 :: rest)

/-- `japanese_to_chinese`, with the opaque OpenCC converter `t2s.convert`
taken as the parameter `conv`: empty input fails, the kana pass runs, the
converter runs, and an empty conversion fails — every non-empty conversion is
returned, even when it still contains kana. -/
def japanese_to_chinese (conv : List Nat → List Nat) (jaLabel : List Nat) : Option (List Nat) :=
  if jaLabel = [] then none
  else
    let simplified := conv (kanaToChinesePass jaLabel)
    if simplified = [] then none else some simplified

/-!
## `generate_korean_quickstatements.py`
-/

/-- The codepoint is hiragana (U+3040–U+309F). -/
def isHiraganaCode (c : Nat) : Bool := 0x3040 ≤ c && c ≤ 0x309F

/-- The codepoint is katakana (U+30A0–U+30FF). -/
def isKatakanaCode (c : Nat) : Bool := 0x30A0 ≤ c && c ≤ 0x30FF

/-- The codepoint is a CJK unified ideograph (U+4E00–U+9FFF or the
extension-A block U+3400–U+4DBF). -/
def isCJKCode (c : Nat) : Bool :=
  (0x4E00 ≤ c && c ≤ 0x9FFF) || (0x3400 ≤ c && c ≤ 0x4DBF)

/-- One character step of `japanese_to_korean_hanja`, with the opaque
`hanja.translate(·, "substitution")` collaborator as the parameter `tr`.
State: `(result_parts, current_kana, current_kanji)`.  Kana flush the kanji
buffer through `tr`; ideographs flush the kana buffer through `koreanize`;
any other character flushes both buffers and is itself discarded. -/
def jkhStep (tr : List Nat → List Nat) (st : List (List Nat) × List Nat × List Nat)
    (c : Nat) : List (List Nat) × List Nat × List Nat :=
  let parts := st.1
  let kana := st.2.1
  let kanji := st.2.2
  if isHiraganaCode c || isKatakanaCode c then
    if kanji ≠ [] then (parts ++ [tr kanji], kana ++ [c], [])
    else (parts, kana ++ [c], kanji)
  else if isCJKCode c then
    if kana ≠ [] then (parts ++ [koreanize kana], [], kanji ++ [c])
    else (parts, kana, kanji ++ [c])
  else
    let parts1 := if kanji ≠ [] then parts ++ [tr kanji] else parts
    let parts2 := if kana ≠ [] then parts1 ++ [koreanize kana] else parts1
    (parts2, [], [])

/-- The string built by `japanese_to_korean_hanja` before its leftover-CJK
check: scan the label, flush the trailing kanji buffer then the trailing kana
buffer, and join the parts. -/
def jkhResult (tr : List Nat → List Nat) (jaLabel : List Nat) : List Nat :=
  let st := jaLabel.foldl (jkhStep tr) ([], [], [])
  let parts1 := if st.2.2 ≠ [] then st.1 ++ [tr st.2.2] else st.1
  let parts2 := if st.2.1 ≠ [] then parts1 ++ [koreanize st.2.1] else parts1
  parts2.join

/-- `japanese_to_korean_hanja`: empty input fails; a built result that still
contains a CJK ideograph (the converter returned the original kanji) fails;
an empty result fails; otherwise the result is returned. -/
def japanese_to_korean_hanja (tr : List Nat → List Nat) (jaLabel : List Nat) :
    Option (List Nat) :=
  if jaLabel = [] then none
  else
    let result := jkhResult tr jaLabel
    if result.any isCJKCode then none
    else if result = [] then none else some result
/-!
## Test-vector lists for the Cyrillic voicing property
-/

/-- The voiced/unvoiced romaji mora pairs of the g/z/d/b rows (voiced mora
first, its unvoiced counterpart second). -/
def cyrVoicedRomajiPairs : List (List Nat × List Nat) :=
  [(codes "ga", codes "ka"), (codes "gi", codes "ki"), (codes "gu", codes "ku"),
   (codes "ge", codes "ke"), (codes "go", codes "ko"),
   (codes "za", codes "sa"), (codes "ji", codes "shi"), (codes "zu", codes "su"),
   (codes "ze", codes "se"), (codes "zo", codes "so"),
   (codes "da", codes "ta"), (codes "di", codes "chi"), (codes "du", codes "tsu"),
   (codes "de", codes "te"), (codes "do", codes "to"),
   (codes "ba", codes "ha"), (codes "bi", codes "hi"), (codes "bu", codes "fu"),
   (codes "be", codes "he"), (codes "bo", codes "ho")]

/-- The voiced kana of the g/z/d/b rows other than ず and づ, each paired
with its unvoiced counterpart kana. -/
def cyrVoicedKanaPairs : List (List Nat × List Nat) :=
  [(codes "が", codes "か"), (codes "ぎ", codes "き"), (codes "ぐ", codes "く"),
   (codes "げ", codes "け"), (codes "ご", codes "こ"),
   (codes "ざ", codes "さ"), (codes "じ", codes "し"),
   (codes "ぜ", codes "せ"), (codes "ぞ", codes "そ"),
   (codes "だ", codes "た"), (codes "ぢ", codes "ち"),
   (codes "で", codes "て"), (codes "ど", codes "と"),
   (codes "ば", codes "は"), (codes "び", codes "ひ"), (codes "ぶ", codes "ふ"),
   (codes "べ", codes "へ"), (codes "ぼ", codes "ほ")]
/-!
## Theorems

### C1: tokenizer consumption bound
-/

theorem tokenizeLoop_sum_length_le (vocab : List Nat → Bool) :
    ∀ (fuel : Nat) (s : List Nat),
      (((tokenizeLoop vocab fuel s).map List.length).sum ≤ s.length)
  | 0, _ => by simp [tokenizeLoop]
  | _ + 1, [] => by simp [tokenizeLoop]
  | fuel + 1, c :: cs => by
    simp only [tokenizeLoop]
    split_ifs <;> (try simp only [List.map_cons, List.sum_cons])
    · have ih := tokenizeLoop_sum_length_le vocab fuel ((c :: cs).drop 3)
      have hsplit : ((c :: cs).take 3).length + ((c :: cs).drop 3).length
          = (c :: cs).length := by
        rw [← List.length_append, List.take_append_drop]
      omega
    · have ih := tokenizeLoop_sum_length_le vocab fuel ((c :: cs).drop 2)
      have hsplit : ((c :: cs).take 2).length + ((c :: cs).drop 2).length
          = (c :: cs).length := by
        rw [← List.length_append, List.take_append_drop]
      omega
    · have ih := tokenizeLoop_sum_length_le vocab fuel cs
      have h1 : ([c] : List Nat).length = 1 := rfl
      have hl : (c :: cs).length = cs.length + 1 := rfl
      omega
    · have ih := tokenizeLoop_sum_length_le vocab fuel cs
      have hl : (c :: cs).length = cs.length + 1 := rfl
      omega

theorem tokenizeLoop_join_sublist (vocab : List Nat → Bool) :
    ∀ (fuel : Nat) (s : List Nat), (tokenizeLoop vocab fuel s).join.Sublist s
  | 0, _ => by simp [tokenizeLoop]
  | _ + 1, [] => by simp [tokenizeLoop]
  | fuel + 1, c :: cs => by
    simp only [tokenizeLoop]
    split_ifs <;> (try simp only [List.join_cons])
    · have ih := tokenizeLoop_join_sublist vocab fuel ((c :: cs).drop 3)
      have h := (List.Sublist.refl ((c :: cs).take 3)).append ih
      rwa [List.take_append_drop] at h
    · have ih := tokenizeLoop_join_sublist vocab fuel ((c :: cs).drop 2)
      have h := (List.Sublist.refl ((c :: cs).take 2)).append ih
      rwa [List.take_append_drop] at h
    · exact (tokenizeLoop_join_sublist vocab fuel cs).cons₂ c
    · exact (tokenizeLoop_join_sublist vocab fuel cs).trans (List.sublist_cons_self c cs)

/-- C1.  Both tokenizers scan left to right, emitting the first 3-, 2-, or
1-character slice found in the palatalized-or-base vocabulary and advancing by
its length, dropping one character when nothing matches (this is the
definition of `tokenizeLoop`).  Consequently the sum of the lengths of the
emitted tokens is at most the input length, and no input character is
consumed twice: the concatenation of the tokens is an order-preserving
selection (sublist) of the input. -/
theorem tokenizer_consumption_bound (s : List Nat) :
    ((((tokenize_romaji s).map List.length).sum ≤ s.length)
      ∧ (tokenize_romaji s).join.Sublist s)
    ∧ ((((tokenize_romaji_korean s).map List.length).sum ≤ s.length)
      ∧ (tokenize_romaji_korean s).join.Sublist s) :=
  ⟨⟨tokenizeLoop_sum_length_le tokiVocab s.length s,
    tokenizeLoop_join_sublist tokiVocab s.length s⟩,
   ⟨tokenizeLoop_sum_length_le koreanVocab s.length s,
    tokenizeLoop_join_sublist koreanVocab s.length s⟩⟩

/-!
### C2: empty-result contract
-/

/-- C2.  An input whose normalized, kana-reduced form yields zero recognized
tokens produces the empty candidate list from `tokiponize` and the empty
string from `koreanize` — no exception (the embedding is total) and no
leftover raw source characters. -/
theorem empty_result_contract (s : List Nat) :
    (tokenize_romaji (kana_to_romaji (normalize s)) = [] → tokiponize s = [])
    ∧ (tokenize_romaji_korean (kana_to_romaji (normalize s)) = [] → koreanize s = []) := by
  constructor
  · intro h
    simp [tokiponize, h, tokiSyllables, apply_h_position, apply_dipthongs_to_syllables,
      pyCapitalize]
  · intro h
    simp [koreanize, h, mergeBatchim]

/-- Witness for C2 at the fully-unmapped input `"xyz"`. -/
theorem empty_result_contract_witness :
    tokiponize (codes "xyz") = [] ∧ koreanize (codes "xyz") = [] :=
  ⟨(empty_result_contract (codes "xyz")).1 (by decide),
   (empty_result_contract (codes "xyz")).2 (by decide)⟩
/-!
### C3: positional /h/ rule
-/

/-- C3 counterexample.  The kana ふ is an h-row mora (its romaji is `fu`),
it is the token at index 0 of its own tokenization, yet the devoicing-Latin
rendering is `"Pu"` — p-initial, not k-initial: `BASE_MAP` sends `hu` and
`fu` to `pu` before the positional rule runs, so the claim's "index 0 →
k-initial" fails for this /h/ mora. -/
theorem h_mora_positional_counterexample :
    lookupTbl KANA_ROMAJI (codes "ふ") = some (codes "fu")
    ∧ tokenize_romaji (codes "fu") = [codes "fu"]
    ∧ tokiponize (codes "ふ") = [codes "Pu"]
    ∧ (codes "Pu").headD 0 ≠ ('k').toNat ∧ (codes "Pu").headD 0 ≠ ('K').toNat := by
  refine ⟨by decide, by decide, by decide, by decide, by decide⟩

/-- C3 amended.  The positional rewrite applies exactly to rendered syllables
that begin with `h` (those derived from the moras ha, hi, he, ho): such a
syllable becomes k-initial at token index 0 and p-initial at every later
index, and every other syllable is unchanged.  In particular `"hachiman"`
tokenizes to `[ha, chi, ma, n]` and renders to `"Kasiman"`, which starts with
`k` and contains no `h`. -/
theorem h_positional_rule_amended :
    (∀ (ss : List (List Nat)) (i : Nat),
      (apply_h_position ss).get? i = (ss.get? i).map (fun syl =>
        if syl.headD 0 = ('h').toNat then
          (if i = 0 then ('k').toNat else ('p').toNat) :: syl.tail
        else syl))
    ∧ tokenize_romaji (codes "hachiman") = [codes "ha", codes "chi", codes "ma", codes "n"]
    ∧ tokiponize (codes "hachiman") = [codes "Kasiman"]
    ∧ (codes "Kasiman").headD 0 = ('K').toNat
    ∧ (codes "Kasiman").contains (('h').toNat) = false := by
  refine ⟨fun ss i => ?_, by decide, by decide, by decide, by decide⟩
  unfold apply_h_position
  rw [List.get?_map, List.get?_enum]
  cases h : ss.get? i <;> simp

/-!
### C5: batchim merge
-/

/-- C5.  A standalone nasal jamo ㄴ following a part ending in character `c`
is merged into `c` exactly when `c` is a composed syllable block
(U+AC00–U+D7A3) whose final-consonant slot is empty (offset from 0xAC00
divisible by 28), by adding the final-consonant index 4 to the codepoint;
otherwise it is appended as a standalone grapheme.  In particular
`koreanize "kanda"` is exactly the two composed syllable blocks `"칸다"`,
the first being 카 + 4 (the nasal-coda batchim). -/
theorem batchim_merge_spec :
    (∀ (p : List Nat) (c : Nat),
      mergeBatchim [p ++ [c], nieunStr] =
        if 0xAC00 ≤ c ∧ c ≤ 0xD7A3 ∧ (c - 0xAC00) % 28 = 0 then [p ++ [c + 4]]
        else [p ++ [c], nieunStr])
    ∧ koreanize (codes "kanda") = codes "칸다"
    ∧ (codes "칸다").length = 2
    ∧ ((codes "칸다").all fun b => decide (0xAC00 ≤ b ∧ b ≤ 0xD7A3)) = true
    ∧ ('칸').toNat = ('카').toNat + 4 := by
  refine ⟨fun p c => ?_, by decide, by decide, by decide, by decide⟩
  have hstep0 : mergeStep [] (p ++ [c]) = [p ++ [c]] := by simp [mergeStep]
  have hbatch : mergeBatchim [p ++ [c], nieunStr] = mergeStep [p ++ [c]] nieunStr := by
    simp [mergeBatchim, hstep0]
  rw [hbatch]
  have hprev : ([p ++ [c]] : List (List Nat)).getLastD [] = p ++ [c] := rfl
  have hlast : (p ++ [c]).getLastD 0 = c := List.getLastD_concat 0 c p
  by_cases hc : 0xAC00 ≤ c ∧ c ≤ 0xD7A3 ∧ (c - 0xAC00) % 28 = 0
  · rw [if_pos hc]
    have hhf : has_final c = false := by
      unfold has_final
      dsimp only
      split_ifs with h1
      · rfl
      · simp only [decide_eq_false_iff_not, ne_eq, not_not]
        omega
    have hadd : add_nieun_batchim c = [c + 4] := by
      unfold add_nieun_batchim
      dsimp only
      split_ifs with h1 h2
      · exfalso; simp only [Bool.or_eq_true, decide_eq_true_eq] at h1; omega
      · exfalso; simp only [decide_eq_true_eq, ne_eq] at h2; omega
      · rfl
    unfold mergeStep
    rw [if_pos ⟨rfl, by simp⟩]
    simp only [hprev, hlast]
    rw [if_pos ⟨hc.1, hc.2.1, hhf⟩]
    simp [hadd]
  · rw [if_neg hc]
    unfold mergeStep
    rw [if_pos ⟨rfl, by simp⟩]
    simp only [hprev, hlast]
    rw [if_neg]
    · rfl
    · rintro ⟨h1, h2, h3⟩
      apply hc
      refine ⟨h1, h2, ?_⟩
      unfold has_final at h3
      dsimp only at h3
      split_ifs at h3 with h4
      · simp only [Bool.or_eq_true, decide_eq_true_eq] at h4; omega
      · simp only [decide_eq_false_iff_not, ne_eq, not_not] at h3; omega

/-!
### C10: word-initial nasal stays unmerged
-/

theorem mergeStep_head_nieun (m : List (List Nat)) (part : List Nat)
    (hm : m.head? = some nieunStr) : (mergeStep m part).head? = some nieunStr := by
  cases m with
  | nil => simp at hm
  | cons w ms =>
    have hw : w = nieunStr := by simpa using hm
    subst hw
    unfold mergeStep
    dsimp only
    split_ifs with h1 h2
    · cases ms with
      | nil =>
        exfalso
        revert h2
        decide
      | cons y t => simp
    · simp
    · simp

theorem foldl_mergeStep_head (parts : List (List Nat)) :
    ∀ m, m.head? = some nieunStr →
      (List.foldl mergeStep m parts).head? = some nieunStr := by
  induction parts with
  | nil => intro m hm; simpa
  | cons x t ih => intro m hm; exact ih _ (mergeStep_head_nieun m x hm)

/-- C10.  When the moraic nasal is the first rendered part (no preceding
syllable block exists), `koreanize` emits the bare compatibility jamo ㄴ
unmerged at the head of the output — e.g. the input `"nda"` yields `"ㄴ다"` —
and in general a parts list headed by ㄴ keeps ㄴ as the head of the merged
output, the batchim merge firing only on later parts. -/
theorem initial_nasal_unmerged :
    koreanize (codes "nda") = codes "ㄴ다"
    ∧ ∀ (parts : List (List Nat)),
        (mergeBatchim (nieunStr :: parts)).head? = some nieunStr := by
  refine ⟨by decide, fun parts => ?_⟩
  unfold mergeBatchim
  rw [List.foldl_cons, show mergeStep [] nieunStr = [nieunStr] from by simp [mergeStep]]
  exact foldl_mergeStep_head parts [nieunStr] rfl

/-!
### C9: leftover source-script codepoints after external conversion
-/

/-- C9 counterexample.  The Chinese pipeline does not fail on leftover
source-script codepoints: ヴ (katakana, so a kana source codepoint) has no
entry in `KANA_TO_CHINESE`, survives the kana pass, and — with a converter
that leaves it untouched, as OpenCC does for kana — `japanese_to_chinese`
returns the mixed-script label `"ヴ"` instead of nothing. -/
theorem leftover_script_counterexample :
    is_kana (('ヴ').toNat) = true
    ∧ lookupTbl KANA_TO_CHINESE (codes "ヴ") = none
    ∧ japanese_to_chinese (fun s => s) (codes "ヴ") = some (codes "ヴ") := by
  refine ⟨by decide, by decide, by decide⟩

/-- C9 amended.  The Korean sino-reading pipeline does detect leftover
source-script codepoints: whenever the built string still contains a CJK
ideograph, `japanese_to_korean_hanja` returns nothing.  The Chinese pipeline
performs no such check: for every converter and non-empty label whose
conversion is non-empty, the conversion is returned as-is, even if kana
remain in it. -/
theorem leftover_script_amended :
    (∀ (tr : List Nat → List Nat) (jaLabel : List Nat),
      (jkhResult tr jaLabel).any isCJKCode = true →
        japanese_to_korean_hanja tr jaLabel = none)
    ∧ (∀ (conv : List Nat → List Nat) (jaLabel : List Nat),
      jaLabel ≠ [] → conv (kanaToChinesePass jaLabel) ≠ [] →
        japanese_to_chinese conv jaLabel = some (conv (kanaToChinesePass jaLabel))) := by
  constructor
  · intro tr jaLabel h
    unfold japanese_to_korean_hanja
    dsimp only
    split_ifs <;> rfl
  · intro conv jaLabel h1 h2
    unfold japanese_to_chinese
    rw [if_neg h1, if_neg h2]

/-- Witness for C9's amended theorem: the identity converter leaves the
ideograph 神 in place, so the Korean pipeline fails on it; the kana の maps
to 之 and the Chinese pipeline returns it. -/
theorem leftover_script_amended_witness :
    japanese_to_korean_hanja (fun s => s) (codes "神") = none
    ∧ japanese_to_chinese (fun s => s) (codes "の") = some (codes "之") :=
  ⟨leftover_script_amended.1 (fun s => s) (codes "神") (by decide),
   (leftover_script_amended.2 (fun s => s) (codes "の") (by decide) (by decide)).trans
     (by decide)⟩

/-!
### C6: Cyrillic voicing
-/

/-- C6 counterexample.  The voiced kana ず, passed through the kana→romaji
reduction, renders identically to its unvoiced counterpart す (both `"Су"`),
not as the voiced Polivanov form `"Дзу"` that the romaji `zu` produces:
`KANA_ROMAJI` collapses ず to `su`. -/
theorem cyrillic_voicing_counterexample :
    cyrillicize_word (codes "ず") = cyrillicize_word (codes "す")
    ∧ cyrillicize_word (codes "zu") = codes "Дзу"
    ∧ cyrillicize_word (codes "ず") ≠ codes "Дзу" := by
  refine ⟨by decide, by decide, by decide⟩

/-- C6 amended.  Supplied as romaji, every voiced g/z/d/b-row mora renders as
its voiced Polivanov correspondence, distinct from its unvoiced counterpart,
with the /z/ and /j/ moras realizing as дз-digraphs (za→дза, ji→дзи,
zu→дзу).  Through the kana→romaji reduction the same holds for every voiced
kana except ず and づ, which `KANA_ROMAJI` collapses to `su` and `tu`, so
they render unvoiced (ず→Су, づ→Цу). -/
theorem cyrillic_voicing_amended :
    lookupTbl CYRILLIC_BASE (codes "za") = some (codes "дза")
    ∧ lookupTbl CYRILLIC_BASE (codes "ji") = some (codes "дзи")
    ∧ lookupTbl CYRILLIC_BASE (codes "zu") = some (codes "дзу")
    ∧ (cyrVoicedRomajiPairs.all fun pr =>
        (lookupTbl CYRILLIC_BASE pr.1).isSome && (lookupTbl CYRILLIC_BASE pr.2).isSome
          && (lookupTbl CYRILLIC_BASE pr.1 != lookupTbl CYRILLIC_BASE pr.2)) = true
    ∧ (cyrVoicedKanaPairs.all fun pr =>
        !(cyrillicize_word pr.1).isEmpty
          && (cyrillicize_word pr.1 != cyrillicize_word pr.2)) = true
    ∧ lookupTbl KANA_ROMAJI (codes "ず") = some (codes "su")
    ∧ lookupTbl KANA_ROMAJI (codes "づ") = some (codes "tu")
    ∧ cyrillicize_word (codes "ず") = codes "Су"
    ∧ cyrillicize_word (codes "づ") = codes "Цу" := by
  refine ⟨by decide, by decide, by decide, by decide, by decide, by decide, by decide,
    by decide, by decide⟩
/-!
### C7: diphthong collapsing pass
-/

theorem dipStep_shift (done : List (List Nat)) (prev syl : List Nat) :
    dipStep (done, prev) syl
      = (done ++ (dipStep ([], prev) syl).1, (dipStep ([], prev) syl).2) := by
  unfold dipStep
  dsimp only
  split_ifs with h h2
  · cases hl : lookupTbl DIPTHONGS [prev.getLastD 0, syl.headD 0] <;> simp
  · cases hl : lookupTbl DIPTHONGS [prev.getLastD 0, syl.headD 0] <;> simp
  · simp

theorem dipFold_shift (l : List (List Nat)) :
    ∀ (done : List (List Nat)) (prev : List Nat),
      List.foldl dipStep (done, prev) l
        = (done ++ (List.foldl dipStep ([], prev) l).1,
           (List.foldl dipStep ([], prev) l).2) := by
  induction l with
  | nil => intro done prev; simp
  | cons s t ih =>
    intro done prev
    simp only [List.foldl_cons]
    rw [dipStep_shift]
    rw [ih (done ++ (dipStep ([], prev) s).1) (dipStep ([], prev) s).2,
        ih (dipStep ([], prev) s).1 (dipStep ([], prev) s).2, List.append_assoc]

theorem DIPTHONGS_key_vowels (a b : Nat) (d : List Nat)
    (h : lookupTbl DIPTHONGS [a, b] = some d) :
    isVowelCode a = true ∧ isVowelCode b = true := by
  unfold lookupTbl at h
  cases hf : List.find? (fun pr => pr.1 == [a, b]) DIPTHONGS with
  | none => rw [hf] at h; simp at h
  | some pr =>
    have hmem := List.mem_of_find?_eq_some hf
    have hkey : pr.1 = [a, b] := by
      have := List.find?_some hf
      simpa using this
    have hall : ∀ q ∈ DIPTHONGS,
        isVowelCode (q.1.headD 0) = true ∧ isVowelCode (q.1.getLastD 0) = true := by decide
    have hq := hall pr hmem
    rw [hkey] at hq
    simpa using hq

/-- C7.  The diphthong pass is a single left-to-right scan with an
accumulated previous syllable: (i) a seam that is not a vowel pair in the
diphthong table (or an empty neighbour) leaves the previous syllable behind
untouched and continues; (ii) when the accumulated previous syllable ends in
a vowel and the next syllable is a bare vowel whose ordered pair is in the
table, the next syllable is wholly absorbed and the merged syllable remains
the accumulator; (iii) when the next syllable is longer, only its leading
vowel is consumed, the merged previous syllable is emitted, and the remainder
is re-emitted as the new accumulator. -/
theorem dipthong_pass_spec :
    (∀ (p s : List Nat) (ss : List (List Nat)),
      (p = [] ∨ s = [] ∨ lookupTbl DIPTHONGS [p.getLastD 0, s.headD 0] = none) →
        apply_dipthongs_to_syllables (p :: s :: ss)
          = p :: apply_dipthongs_to_syllables (s :: ss))
    ∧ (∀ (p s : List Nat) (ss : List (List Nat)) (d : List Nat),
      lookupTbl DIPTHONGS [p.getLastD 0, s.headD 0] = some d → p ≠ [] → s.length = 1 →
        apply_dipthongs_to_syllables (p :: s :: ss)
          = apply_dipthongs_to_syllables ((p.dropLast ++ d) :: ss))
    ∧ (∀ (p s : List Nat) (ss : List (List Nat)) (d : List Nat),
      lookupTbl DIPTHONGS [p.getLastD 0, s.headD 0] = some d → p ≠ [] → 2 ≤ s.length →
        apply_dipthongs_to_syllables (p :: s :: ss)
          = (p.dropLast ++ d) :: apply_dipthongs_to_syllables (s.drop 1 :: ss)) := by
  refine ⟨fun p s ss h => ?_, fun p s ss d hd hp hs => ?_, fun p s ss d hd hp hs => ?_⟩
  · have hstep : dipStep ([], p) s = ([p], s) := by
      unfold dipStep
      dsimp only
      rcases h with h | h | h
      · rw [if_neg (fun hc => hc.1 h)]
        simp
      · rw [if_neg (fun hc => hc.2.1 h)]
        simp
      · simp only [List.getLastD_eq_getLast?, List.headD_eq_head?_getD] at h
        split_ifs with hcond hlen <;> simp [h]
    unfold apply_dipthongs_to_syllables
    dsimp only
    rw [List.foldl_cons, hstep, dipFold_shift]
    simp
  · have hs1 : s ≠ [] := by cases s <;> simp_all
    have hv := DIPTHONGS_key_vowels _ _ _ hd
    have hstep : dipStep ([], p) s = ([], p.dropLast ++ d) := by
      unfold dipStep
      dsimp only
      rw [if_pos ⟨hp, hs1, hv.1, hv.2⟩, hd]
      dsimp only
      rw [if_pos hs]
    unfold apply_dipthongs_to_syllables
    dsimp only
    rw [List.foldl_cons, hstep]
  · have hs1 : s ≠ [] := by cases s <;> simp_all
    have hsne : ¬ s.length = 1 := by omega
    have hv := DIPTHONGS_key_vowels _ _ _ hd
    have hstep : dipStep ([], p) s = ([p.dropLast ++ d], s.drop 1) := by
      unfold dipStep
      dsimp only
      rw [if_pos ⟨hp, hs1, hv.1, hv.2⟩, hd]
      dsimp only
      rw [if_neg hsne]
      simp
    unfold apply_dipthongs_to_syllables
    dsimp only
    rw [List.foldl_cons, hstep, dipFold_shift]
    simp

/-- Witness for C7 at the syllables `[ka, i, ma]`: the bare vowel `i` is
absorbed into `ka` through the `ai → a` table entry. -/
theorem dipthong_pass_spec_witness :
    lookupTbl DIPTHONGS [('a').toNat, ('i').toNat] = some (codes "a")
    ∧ apply_dipthongs_to_syllables [codes "ka", codes "i", codes "ma"]
        = apply_dipthongs_to_syllables [codes "ka", codes "ma"] := by
  refine ⟨by decide, ?_⟩
  have h := dipthong_pass_spec.2.1 (codes "ka") (codes "i") [codes "ma"] (codes "a")
    (by decide) (by decide) (by decide)
  exact h.trans (by decide)
/-!
### C4: normalization idempotence
-/

theorem not_jungseong_of_not_jamo (d : Nat) (h : isConjoiningJamo d = false) :
    isJungseong d = false := by
  simp only [isConjoiningJamo, decide_eq_false_iff_not] at h
  simp only [isJungseong, decide_eq_false_iff_not]
  omega

theorem not_jongseong_of_not_jamo (d : Nat) (h : isConjoiningJamo d = false) :
    isJongseong d = false := by
  simp only [isConjoiningJamo, decide_eq_false_iff_not] at h
  simp only [isJongseong, decide_eq_false_iff_not]
  omega

theorem nfkc_of_no_jamo :
    ∀ (l : List Nat), (∀ c ∈ l, isConjoiningJamo c = false) → nfkc l = l
  | [], _ => rfl
  | [_], _ => rfl
  | c :: d :: rest, h => by
    have hd : isConjoiningJamo d = false := h d (by simp)
    unfold nfkc
    rw [if_neg (by simp [not_jungseong_of_not_jamo d hd])]
    rw [if_neg (by simp [not_jongseong_of_not_jamo d hd])]
    rw [nfkc_of_no_jamo (d :: rest) (fun x hx => h x (by simp [List.mem_cons] at hx ⊢; tauto))]

theorem lowerCode_idem (c : Nat) : lowerCode (lowerCode c) = lowerCode c := by
  unfold lowerCode
  split_ifs <;> omega

theorem lowerCode_not_jamo (c : Nat) (h : isConjoiningJamo c = false) :
    isConjoiningJamo (lowerCode c) = false := by
  simp only [isConjoiningJamo, decide_eq_false_iff_not] at h ⊢
  unfold lowerCode
  split_ifs <;> omega

theorem macronFold_not_jamo (c : Nat) (h : isConjoiningJamo c = false) :
    isConjoiningJamo (macronFold c) = false := by
  unfold macronFold
  split_ifs <;> first | decide | exact h

theorem macronFold_idem (c : Nat) : macronFold (macronFold c) = macronFold c := by
  unfold macronFold
  split_ifs <;> first | rfl | omega

theorem goodChar_of (b : Nat) (hw : isWordCode (lowerCode b) = true)
    (hcho : isConjoiningJamo b = false) :
    lowerCode (macronFold (lowerCode b)) = macronFold (lowerCode b)
    ∧ macronFold (macronFold (lowerCode b)) = macronFold (lowerCode b)
    ∧ isWordCode (macronFold (lowerCode b)) = true
    ∧ isConjoiningJamo (macronFold (lowerCode b)) = false := by
  refine ⟨?_, macronFold_idem (lowerCode b), ?_, macronFold_not_jamo _
    (lowerCode_not_jamo b hcho)⟩
  · conv_rhs => rw [← lowerCode_idem b]
    conv_lhs => rw [show macronFold (lowerCode b)
      = macronFold (lowerCode (lowerCode b)) from by rw [lowerCode_idem]]
    generalize lowerCode b = d
    unfold macronFold
    split_ifs <;> first | decide | exact lowerCode_idem d
  · revert hw
    generalize lowerCode b = d
    intro hw
    unfold macronFold
    split_ifs <;> first | decide | exact hw

theorem map_id_of {α : Type} (f : α → α) :
    ∀ (l : List α), (∀ c ∈ l, f c = c) → l.map f = l := by
  intro l
  induction l with
  | nil => intro _; rfl
  | cons a t ih =>
    intro h
    simp only [List.map_cons]
    rw [h a (by simp), ih (fun c hc => h c (by simp [hc]))]

theorem normalize_good_chars (x : List Nat) (hx : ∀ b ∈ x, isConjoiningJamo b = false) :
    ∀ c ∈ normalize x,
      lowerCode c = c ∧ macronFold c = c
        ∧ isWordCode c = true ∧ isConjoiningJamo c = false := by
  intro c hc
  unfold normalize at hc
  rw [nfkc_of_no_jamo x hx] at hc
  simp only [List.mem_map, List.mem_filter] at hc
  obtain ⟨d, ⟨⟨b, hb, rfl⟩, hw⟩, rfl⟩ := hc
  exact goodChar_of b hw (hx b hb)

theorem normalize_fix (y : List Nat)
    (hy : ∀ c ∈ y,
      lowerCode c = c ∧ macronFold c = c
        ∧ isWordCode c = true ∧ isConjoiningJamo c = false) :
    normalize y = y := by
  unfold normalize
  rw [nfkc_of_no_jamo y (fun c hc => (hy c hc).2.2.2)]
  rw [map_id_of lowerCode y (fun c hc => (hy c hc).1)]
  rw [List.filter_eq_self.mpr (fun c hc => by rw [(hy c hc).2.2.1])]
  rw [map_id_of macronFold y (fun c hc => (hy c hc).2.1)]

theorem engineAlphabet_not_jamo (c : Nat) (h : engineAlphabet c = true) :
    isConjoiningJamo c = false := by
  simp only [engineAlphabet, Bool.or_eq_true, Bool.and_eq_true, decide_eq_true_eq] at h
  simp only [isConjoiningJamo, decide_eq_false_iff_not]
  omega

/-- C4 counterexample.  `normalize` is not idempotent: stripping a non-word
character can juxtapose two Hangul codepoints that NFKC composes only on the
following pass.  On ᄀ!ᅡ (U+1100, `!`, U+1161) the first pass strips `!`
leaving the two bare jamo and the second pass composes them into the
syllable 가 (U+AC00); likewise on 가!ᆨ (U+AC00, `!`, U+11A8) — an input
with no initial jamo at all — the first pass leaves the LV syllable next to
the trailing jamo and the second pass composes them into 각 (U+AC01). -/
theorem normalize_idempotence_counterexample :
    normalize (codes "ᄀ!ᅡ") = [0x1100, 0x1161]
    ∧ normalize (normalize (codes "ᄀ!ᅡ")) = codes "가"
    ∧ normalize (normalize (codes "ᄀ!ᅡ")) ≠ normalize (codes "ᄀ!ᅡ")
    ∧ normalize (codes "가!ᆨ") = [0xAC00, 0x11A8]
    ∧ normalize (normalize (codes "가!ᆨ")) = [0xAC01]
    ∧ normalize (normalize (codes "가!ᆨ")) ≠ normalize (codes "가!ᆨ") := by
  refine ⟨by decide, by decide, by decide, by decide, by decide, by decide⟩

/-- C4 amended.  `normalize` is a total function (a Lean function by
construction) and is idempotent on every string over the engine's working
alphabet — printable ASCII, the macron vowels, Cyrillic, kana, CJK
ideographs, and precomposed Hangul syllables — which contains no Hangul
jamo of any kind and no combining mark, so stripping can never juxtapose a
composable pair.  Idempotence fails in general because stripping a non-word
character can juxtapose decomposed Hangul jamo (or an LV syllable and a
trailing jamo) that NFKC composes only on the next pass. -/
theorem normalize_idempotent_on_stable_alphabet (x : List Nat)
    (h : ∀ b ∈ x, engineAlphabet b = true) :
    normalize (normalize x) = normalize x :=
  normalize_fix (normalize x)
    (normalize_good_chars x (fun b hb => engineAlphabet_not_jamo b (h b hb)))

/-- Witness for C4 at `"Hachiman Jinja"` (uppercase letters and a space, so
the lowercasing and stripping passes are both exercised). -/
theorem normalize_idempotent_witness :
    normalize (normalize (codes "Hachiman Jinja")) = normalize (codes "Hachiman Jinja") :=
  normalize_idempotent_on_stable_alphabet (codes "Hachiman Jinja") (by decide)
/-!
### C8: final-syllable declension locality
-/

theorem splitFold_no_space (s : List Nat) :
    ∀ w ∈ s.foldr splitFold [], ∀ c ∈ w, isSpaceCode c = false := by
  induction s with
  | nil => intro w hw; simp at hw
  | cons a t ih =>
    intro w hw c hc
    simp only [List.foldr_cons] at hw
    set R := t.foldr splitFold [] with hR
    unfold splitFold at hw
    split_ifs at hw with h
    · rcases List.mem_cons.mp hw with rfl | hw2
      · simp at hc
      · exact ih w hw2 c hc
    · rcases List.mem_cons.mp hw with rfl | hw2
      · rcases List.mem_cons.mp hc with rfl | hc2
        · simpa using h
        · cases hacc : R with
          | nil => rw [hacc] at hc2; simp at hc2
          | cons w0 ws =>
            rw [hacc] at hc2
            exact ih w0 (by rw [hacc]; exact List.mem_cons_self w0 ws) c (by simpa using hc2)
      · exact ih w (List.mem_of_mem_tail hw2) c hc

theorem pySplit_words (s : List Nat) :
    ∀ w ∈ pySplit s, w ≠ [] ∧ ∀ c ∈ w, isSpaceCode c = false := by
  intro w hw
  unfold pySplit at hw
  rw [List.mem_filter] at hw
  exact ⟨by simpa using hw.2, fun c hc => splitFold_no_space s w hw.1 c hc⟩

theorem foldr_splitFold_word :
    ∀ (w : List Nat), w ≠ [] → (∀ c ∈ w, isSpaceCode c = false) →
      ∀ (acc : List (List Nat)),
        List.foldr splitFold acc w = (w ++ acc.headD []) :: acc.tail
  | [], hw, _ => absurd rfl hw
  | [c], _, hns => by
    intro acc
    have hc : isSpaceCode c = false := hns c (by simp)
    simp [splitFold, hc]
  | c :: c2 :: t, _, hns => by
    intro acc
    have hc : isSpaceCode c = false := hns c (by simp)
    have hrec := foldr_splitFold_word (c2 :: t) (by simp)
      (fun x hx => hns x (by simp [List.mem_cons] at hx ⊢; tauto)) acc
    simp only [List.foldr_cons] at hrec ⊢
    rw [hrec]
    simp [splitFold, hc]

theorem pySplit_joinSpace :
    ∀ (ws : List (List Nat)),
      (∀ w ∈ ws, w ≠ [] ∧ ∀ c ∈ w, isSpaceCode c = false) →
        pySplit (joinSpace ws) = ws
  | [], _ => rfl
  | [w], h => by
    obtain ⟨hw, hns⟩ := h w (by simp)
    unfold joinSpace pySplit
    rw [foldr_splitFold_word w hw hns []]
    simp [hw]
  | w :: w2 :: t, h => by
    obtain ⟨hw, hns⟩ := h w (by simp)
    have ih := pySplit_joinSpace (w2 :: t)
      (fun x hx => h x (by simp [List.mem_cons] at hx ⊢; tauto))
    show pySplit (w ++ 0x20 :: joinSpace (w2 :: t)) = w :: w2 :: t
    unfold pySplit
    rw [List.foldr_append]
    simp only [List.foldr_cons]
    rw [show splitFold 0x20 (List.foldr splitFold [] (joinSpace (w2 :: t)))
        = [] :: List.foldr splitFold [] (joinSpace (w2 :: t)) from by simp [splitFold, isSpaceCode]]
    rw [foldr_splitFold_word w hw hns ([] :: List.foldr splitFold [] (joinSpace (w2 :: t)))]
    simp only [List.headD_cons, List.tail_cons, List.append_nil]
    unfold pySplit at ih
    rw [List.filter_cons_of_pos (by cases w <;> simp_all)]
    rw [ih]

theorem getLastD_mem :
    ∀ (l : List (List Nat)), l ≠ [] → l.getLastD [] ∈ l := by
  intro l hl
  rw [List.getLastD_eq_getLast?, List.getLast?_eq_getLast l hl]
  exact List.getLast_mem hl

theorem locality_of (f : List Nat → List Nat)
    (hf : ∀ w, w ≠ [] → (∀ c ∈ w, isSpaceCode c = false) →
      f w ≠ [] ∧ ∀ c ∈ f w, isSpaceCode c = false)
    (name : List Nat) (h2 : 2 ≤ (pySplit name).length) :
    pySplit (joinSpace ((pySplit name).dropLast ++ [f ((pySplit name).getLastD [])]))
      = (pySplit name).dropLast ++ [f ((pySplit name).getLastD [])] := by
  have hne : pySplit name ≠ [] := by
    intro he
    rw [he] at h2
    simp at h2
  apply pySplit_joinSpace
  intro w hw
  rcases List.mem_append.mp hw with hw | hw
  · exact pySplit_words name w ((List.dropLast_sublist _).subset hw)
  · simp only [List.mem_singleton] at hw
    subst hw
    obtain ⟨hnn, hns⟩ := pySplit_words name _ (getLastD_mem _ hne)
    exact hf _ hnn hns
theorem decline_word_russian_wf (w : List Nat) (hw : w ≠ [])
    (hns : ∀ c ∈ w, isSpaceCode c = false) :
    decline_word_russian w ≠ [] ∧ ∀ c ∈ decline_word_russian w, isSpaceCode c = false := by
  unfold decline_word_russian
  cases hf : rusRules2.find? (fun r => r.1.isSuffixOf w) with
  | some r =>
    have hmem := List.mem_of_find?_eq_some hf
    have hall : ∀ q ∈ rusRules2, q.2 ≠ [] ∧ ∀ c ∈ q.2, isSpaceCode c = false := by decide
    have hr := hall r hmem
    refine ⟨by simp [hr.1], fun c hc => ?_⟩
    rcases List.mem_append.mp hc with hc | hc
    · exact hns c (List.take_subset _ _ hc)
    · exact hr.2 c hc
  | none =>
    split_ifs with h1 h2
    · refine ⟨by simp [show (codes "и") ≠ [] from by decide], fun c hc => ?_⟩
      rcases List.mem_append.mp hc with hc | hc
      · exact hns c ((List.dropLast_sublist _).subset hc)
      · exact (by decide : ∀ c ∈ codes "и", isSpaceCode c = false) c hc
    · refine ⟨by simp [show (codes "ы") ≠ [] from by decide], fun c hc => ?_⟩
      rcases List.mem_append.mp hc with hc | hc
      · exact hns c ((List.dropLast_sublist _).subset hc)
      · exact (by decide : ∀ c ∈ codes "ы", isSpaceCode c = false) c hc
    · exact ⟨hw, hns⟩

theorem decline_word_ukrainian_wf (w : List Nat) (hw : w ≠ [])
    (hns : ∀ c ∈ w, isSpaceCode c = false) :
    decline_word_ukrainian w ≠ [] ∧ ∀ c ∈ decline_word_ukrainian w, isSpaceCode c = false := by
  unfold decline_word_ukrainian
  cases hf : ukrRules2.find? (fun r => r.1.isSuffixOf w) with
  | some r =>
    have hmem := List.mem_of_find?_eq_some hf
    have hall : ∀ q ∈ ukrRules2, q.2 ≠ [] ∧ ∀ c ∈ q.2, isSpaceCode c = false := by decide
    have hr := hall r hmem
    refine ⟨by simp [hr.1], fun c hc => ?_⟩
    rcases List.mem_append.mp hc with hc | hc
    · exact hns c (List.take_subset _ _ hc)
    · exact hr.2 c hc
  | none =>
    split_ifs with h1
    · refine ⟨by simp [show (codes "и") ≠ [] from by decide], fun c hc => ?_⟩
      rcases List.mem_append.mp hc with hc | hc
      · exact hns c ((List.dropLast_sublist _).subset hc)
      · exact (by decide : ∀ c ∈ codes "и", isSpaceCode c = false) c hc
    · exact ⟨hw, hns⟩

theorem decline_word_lithuanian_wf (w : List Nat) (hw : w ≠ [])
    (hns : ∀ c ∈ w, isSpaceCode c = false) :
    decline_word_lithuanian w ≠ []
      ∧ ∀ c ∈ decline_word_lithuanian w, isSpaceCode c = false := by
  unfold decline_word_lithuanian
  dsimp only
  cases hf : litRules2.find? (fun r => r.1.isSuffixOf (w.map lowerCode)) with
  | some r =>
    have hmem := List.mem_of_find?_eq_some hf
    have hall : ∀ q ∈ litRules2, q.2 ≠ [] ∧ ∀ c ∈ q.2, isSpaceCode c = false := by decide
    have hr := hall r hmem
    refine ⟨by simp [hr.1], fun c hc => ?_⟩
    rcases List.mem_append.mp hc with hc | hc
    · exact hns c (List.take_subset _ _ hc)
    · exact hr.2 c hc
  | none =>
    cases hf1 : litRules1.find? (fun r => r.1.isSuffixOf (w.map lowerCode)) with
    | some r =>
      have hmem := List.mem_of_find?_eq_some hf1
      have hall : ∀ q ∈ litRules1, q.2 ≠ [] ∧ ∀ c ∈ q.2, isSpaceCode c = false := by decide
      have hr := hall r hmem
      refine ⟨by simp [hr.1], fun c hc => ?_⟩
      rcases List.mem_append.mp hc with hc | hc
      · exact hns c (List.take_subset _ _ hc)
      · exact hr.2 c hc
    | none => exact ⟨hw, hns⟩

/-- C8.  Final-syllable declension touches only the last word: for every
name whose whitespace-split form has two or more words, the declined name
splits back into the unchanged non-final words followed by the declined last
word — for the Russian, Ukrainian and Lithuanian families alike.  Within the
final word the suffix rules are tried in order, longest candidate first (a
word ending in the two-character suffix `ан`/`an` takes that rule), and a
final word whose ending matches no rule is returned unchanged. -/
theorem declension_locality :
    (∀ name, 2 ≤ (pySplit name).length →
      pySplit (decline_russian name)
        = (pySplit name).dropLast ++ [decline_word_russian ((pySplit name).getLastD [])])
    ∧ (∀ name, 2 ≤ (pySplit name).length →
      pySplit (decline_ukrainian name)
        = (pySplit name).dropLast ++ [decline_word_ukrainian ((pySplit name).getLastD [])])
    ∧ (∀ name, 2 ≤ (pySplit name).length →
      pySplit (decline_lithuanian name)
        = (pySplit name).dropLast ++ [decline_word_lithuanian ((pySplit name).getLastD [])])
    ∧ (∀ w, (rusRules2.all fun r => !(r.1.isSuffixOf w)) = true →
        (codes "а").isSuffixOf w = false → decline_word_russian w = w)
    ∧ (∀ w, (litRules2.all fun r => !(r.1.isSuffixOf (w.map lowerCode))) = true →
        (litRules1.all fun r => !(r.1.isSuffixOf (w.map lowerCode))) = true →
        decline_word_lithuanian w = w)
    ∧ (∀ w, (codes "ан").isSuffixOf w = true →
        decline_word_russian w = w.take (w.length - 2) ++ codes "ана")
    ∧ (∀ w, (codes "an").isSuffixOf (w.map lowerCode) = true →
        decline_word_lithuanian w = w.take (w.length - 2) ++ codes "ano") := by
  refine ⟨fun name h2 => ?_, fun name h2 => ?_, fun name h2 => ?_,
    fun w hall hsuf => ?_, fun w hall2 hall1 => ?_, fun w hsuf => ?_, fun w hsuf => ?_⟩
  · have hne : pySplit name ≠ [] := by
      intro he; rw [he] at h2; simp at h2
    unfold decline_russian
    rw [if_neg hne]
    exact locality_of decline_word_russian decline_word_russian_wf name h2
  · have hne : pySplit name ≠ [] := by
      intro he; rw [he] at h2; simp at h2
    unfold decline_ukrainian
    rw [if_neg hne]
    exact locality_of decline_word_ukrainian decline_word_ukrainian_wf name h2
  · have hne : pySplit name ≠ [] := by
      intro he; rw [he] at h2; simp at h2
    unfold decline_lithuanian
    rw [if_neg hne]
    exact locality_of decline_word_lithuanian decline_word_lithuanian_wf name h2
  · unfold decline_word_russian
    rw [List.find?_eq_none.mpr (by
      intro r hr hs
      have hthis := List.all_eq_true.mp hall r hr
      simp only [Bool.not_eq_true'] at hthis
      simp [hthis] at hs)]
    rw [if_neg (by simp [hsuf])]
  · unfold decline_word_lithuanian
    dsimp only
    rw [List.find?_eq_none.mpr (by
      intro r hr hs
      have hthis := List.all_eq_true.mp hall2 r hr
      simp only [Bool.not_eq_true'] at hthis
      simp [hthis] at hs)]
    rw [List.find?_eq_none.mpr (by
      intro r hr hs
      have hthis := List.all_eq_true.mp hall1 r hr
      simp only [Bool.not_eq_true'] at hthis
      simp [hthis] at hs)]
  · unfold decline_word_russian
    rw [show rusRules2.find? (fun r => r.1.isSuffixOf w)
        = some (codes "ан", codes "ана") from List.find?_cons_of_pos _ (by simpa using hsuf)]
    exact rfl
  · unfold decline_word_lithuanian
    dsimp only
    rw [show litRules2.find? (fun r => r.1.isSuffixOf (w.map lowerCode))
        = some (codes "an", codes "ano") from List.find?_cons_of_pos _ (by simpa using hsuf)]
    exact rfl

/-- Witness for C8 at the two-word Cyrillic name `"хра ман"`: the first word
is unchanged and the last word takes the `ан → ана` rule. -/
theorem declension_locality_witness :
    2 ≤ (pySplit (codes "хра ман")).length
    ∧ pySplit (decline_russian (codes "хра ман")) = [codes "хра", codes "мана"]
    ∧ (codes "ан").isSuffixOf (codes "ман") = true
    ∧ decline_word_russian (codes "ман") = codes "мана" := by
  refine ⟨by decide, ?_, by decide, ?_⟩
  · exact (declension_locality.1 (codes "хра ман") (by decide)).trans (by decide)
  · exact (declension_locality.2.2.2.2.2.1 (codes "ман") (by decide)).trans (by decide)

end ShrineLabel
